import Mathlib

/-!
Verification development for the llmhub repository's model-registry and
routing core (Python packages `ai_kit` / `llmhub`).

The Python modules are shallowly embedded: pure helpers become Lean
functions, the registry's mutable dictionaries become explicit state records
threaded through each operation, wall-clock reads become a `now : Int`
parameter (an exact stand-in for the float timestamp), and Python exceptions
become an explicit `Exn` sum propagated via `Except`.  Prices and durations
(machine floats in the source) are modelled by rationals.
-/

namespace AiKit

/-! ## Association-list helpers

Python `dict` state (`self._cache`, `self._learned`, key pools) is modelled
by association lists keyed by `String`: `lookup` is `dict.get`, `insertA` is
`d[k] = v` (replacing any previous binding), `eraseA` is `d.pop(k, None)`. -/

instance {ε α : Type} [DecidableEq ε] [DecidableEq α] :
    DecidableEq (Except ε α) := fun a b =>
  match a, b with
  | .ok x, .ok y =>
    if h : x = y then .isTrue (by rw [h])
    else .isFalse (by intro hc; cases hc; exact h rfl)
  | .error x, .error y =>
    if h : x = y then .isTrue (by rw [h])
    else .isFalse (by intro hc; cases hc; exact h rfl)
  | .ok _, .error _ => .isFalse (by intro hc; cases hc)
  | .error _, .ok _ => .isFalse (by intro hc; cases hc)

def lookupA {β : Type} (k : String) : List (String × β) → Option β
  | [] => none
  | (k', v) :: rest => if k' = k then some v else lookupA k rest

def insertA {β : Type} (k : String) (v : β) (l : List (String × β)) :
    List (String × β) :=
  (k, v) :: l.filter (fun p => p.1 ≠ k)

def eraseA {β : Type} (k : String) (l : List (String × β)) :
    List (String × β) :=
  l.filter (fun p => p.1 ≠ k)

/-! ## SHA-256 (`hashlib.sha256(...).hexdigest()`)

`llmhub.entitlements.fingerprint_api_key` calls into Python's `hashlib`;
the hash itself is embedded here as a pure function on byte lists.  32-bit
words are `Nat` reduced modulo `2^32`. -/

def w32 : Nat := 4294967296

def add32 (a b : Nat) : Nat := (a + b) % w32

def rotr32 (n x : Nat) : Nat := ((x >>> n) ||| (x <<< (32 - n))) % w32

def shaK : List Nat :=
  [1116352408, 1899447441, 3049323471, 3921009573, 961987163, 1508970993,
   2453635748, 2870763221, 3624381080, 310598401, 607225278, 1426881987,
   1925078388, 2162078206, 2614888103, 3248222580, 3835390401, 4022224774,
   264347078, 604807628, 770255983, 1249150122, 1555081692, 1996064986,
   2554220882, 2821834349, 2952996808, 3210313671, 3336571891, 3584528711,
   113926993, 338241895, 666307205, 773529912, 1294757372, 1396182291,
   1695183700, 1986661051, 2177026350, 2456956037, 2730485921, 2820302411,
   3259730800, 3345764771, 3516065817, 3600352804, 4094571909, 275423344,
   430227734, 506948616, 659060556, 883997877, 958139571, 1322822218,
   1537002063, 1747873779, 1955562222, 2024104815, 2227730452, 2361852424,
   2428436474, 2756734187, 3204031479, 3329325298]

def shaH0 : List Nat :=
  [1779033703, 3144134277, 1013904242, 2773480762, 1359893119, 2600822924,
   528734635, 1541459225]

/-- Big-endian parse of a byte list into 32-bit words (4 bytes per word). -/
def bytesToWordsBE : List Nat → List Nat
  | a :: b :: c :: d :: rest =>
      (((a * 256 + b) * 256 + c) * 256 + d) :: bytesToWordsBE rest
  | _ => []

/-- Big-endian encoding of a number into `n` bytes. -/
def natToBytesBE (n : Nat) (x : Nat) : List Nat :=
  match n with
  | 0 => []
  | m + 1 => natToBytesBE m (x / 256) ++ [x % 256]

/-- SHA-256 message padding: append `0x80`, zeros, and the 64-bit bit-length,
reaching a multiple of 64 bytes. -/
def shaPad (msg : List Nat) : List Nat :=
  let len := msg.length
  let z := (64 - ((len + 9) % 64)) % 64
  msg ++ [128] ++ List.replicate z 0 ++ natToBytesBE 8 (len * 8)

/-- Split a byte list into 64-byte blocks (fuel-driven recursion). -/
def chunks64 : Nat → List Nat → List (List Nat)
  | 0, _ => []
  | _, [] => []
  | fuel + 1, l => l.take 64 :: chunks64 fuel (l.drop 64)

/-- Extend the 16 message words of a block to the 64-entry schedule. -/
def shaSchedule (ws : List Nat) : List Nat :=
  (List.range 48).foldl
    (fun acc _ =>
      let i := acc.length
      let x15 := acc.getD (i - 15) 0
      let x2 := acc.getD (i - 2) 0
      let s0 := (rotr32 7 x15) ^^^ (rotr32 18 x15) ^^^ (x15 >>> 3)
      let s1 := (rotr32 17 x2) ^^^ (rotr32 19 x2) ^^^ (x2 >>> 10)
      acc ++ [add32 (add32 (acc.getD (i - 16) 0) s0)
                (add32 (acc.getD (i - 7) 0) s1)])
    ws

/-- One compression round; the state is the 8-word working list `[a..h]`. -/
def shaRound (st : List Nat) (kw : Nat × Nat) : List Nat :=
  match st with
  | [a, b, c, d, e, f, g, h] =>
    let s1 := (rotr32 6 e) ^^^ (rotr32 11 e) ^^^ (rotr32 25 e)
    let ch := (e &&& f) ^^^ ((w32 - 1 - e) &&& g)
    let t1 := add32 h (add32 s1 (add32 ch (add32 kw.1 kw.2)))
    let s0 := (rotr32 2 a) ^^^ (rotr32 13 a) ^^^ (rotr32 22 a)
    let mj := (a &&& b) ^^^ (a &&& c) ^^^ (b &&& c)
    let t2 := add32 s0 mj
    [add32 t1 t2, a, b, c, add32 d t1, e, f, g]
  | other => other

/-- Compress one 64-byte block into the running hash. -/
def shaCompress (hs : List Nat) (block : List Nat) : List Nat :=
  let ws := shaSchedule (bytesToWordsBE block)
  let final := (shaK.zip ws).foldl shaRound hs
  (hs.zip final).map (fun p => add32 p.1 p.2)

def sha256Words (msg : List Nat) : List Nat :=
  let padded := shaPad msg
  (chunks64 padded.length padded).foldl shaCompress shaH0

def hexDigit (n : Nat) : Char :=
  if n < 10 then Char.ofNat (48 + n) else Char.ofNat (87 + n)

/-- Lowercase hex rendering of a 32-bit word (8 hex digits). -/
def wordToHex (x : Nat) : String :=
  String.mk ((List.range 8).map
    (fun i => hexDigit ((x >>> ((7 - i) * 4)) &&& 15)))

/-- UTF-8 encoding of one character (`str.encode("utf-8")`). -/
def utf8Byt (c : Char) : List Nat :=
  let n := c.toNat
  if n < 128 then [n]
  else if n < 2048 then [192 ||| (n >>> 6), 128 ||| (n &&& 63)]
  else if n < 65536 then
    [224 ||| (n >>> 12), 128 ||| ((n >>> 6) &&& 63), 128 ||| (n &&& 63)]
  else
    [240 ||| (n >>> 18), 128 ||| ((n >>> 12) &&& 63),
     128 ||| ((n >>> 6) &&& 63), 128 ||| (n &&& 63)]

/-- `hashlib.sha256(s.encode("utf-8")).hexdigest()`. -/
def sha256Hex (s : String) : String :=
  String.join ((sha256Words ((s.toList.map utf8Byt).flatten)).map wordToHex)

/-! ## Errors (`ai_kit/errors.py`)

`ErrorKind`, `KitErrorPayload` and the error class are embedded directly;
the `cause` back-pointer of the payload (an arbitrary Python exception held
only for debugging) is dropped.  A raisable Python exception is either the
unified kit error or some foreign exception carrying its `str(...)` text. -/

inductive ErrorKind where
  | UNKNOWN
  | PROVIDER_AUTH
  | PROVIDER_RATE_LIMIT
  | PROVIDER_NOT_FOUND
  | PROVIDER_UNAVAILABLE
  | VALIDATION
  | UNSUPPORTED
  | TIMEOUT
deriving DecidableEq, Repr

structure KitErrorPayload where
  kind : ErrorKind
  message : String
  provider : Option String := none
  upstreamStatus : Option Int := none
  upstreamCode : Option String := none
  requestId : Option String := none
deriving DecidableEq, Repr

/-- A Python exception: either the unified kit error or any other
exception (represented by its `str(...)` rendering). -/
inductive Exn where
  | kit (payload : KitErrorPayload)
  | other (msg : String)
deriving DecidableEq, Repr

/-- `str(err)`: for a kit error the payload message (passed to
`Exception.__init__`), for anything else its message text. -/
def exnStr : Exn → String
  | .kit p => p.message
  | .other m => m

/-- `errors.classify_status`. -/
def classify_status : Option Int → ErrorKind
  | none => .UNKNOWN
  | some status =>
    if status = 401 ∨ status = 403 then .PROVIDER_AUTH
    else if status = 404 then .PROVIDER_NOT_FOUND
    else if status = 429 then .PROVIDER_RATE_LIMIT
    else if status ≥ 500 then .PROVIDER_UNAVAILABLE
    else .UNKNOWN

/-- `errors.to_kit_error`: pass a kit error through unchanged, wrap anything
else as `UNKNOWN`. -/
def to_kit_error : Exn → KitErrorPayload
  | .kit p => p
  | .other m => { kind := .UNKNOWN, message := m }

/-! ## Data model (`ai_kit/types.py`)

Dataclasses are embedded field for field.  Python floats become `ℚ`;
opaque payloads that the core never inspects (`raw`, provider wire dicts,
chat messages) become `Option String` placeholders. -/

structure ToolCall where
  id : String
  name : String
  argumentsJson : String
deriving DecidableEq, Repr

structure Usage where
  inputTokens : Option Int := none
  outputTokens : Option Int := none
  totalTokens : Option Int := none
deriving DecidableEq, Repr

structure TokenPrices where
  input : Option ℚ := none
  output : Option ℚ := none
deriving DecidableEq, Repr

structure CostBreakdown where
  input_cost_usd : Option ℚ := none
  output_cost_usd : Option ℚ := none
  total_cost_usd : Option ℚ := none
  pricing_per_million : Option TokenPrices := none
deriving DecidableEq, Repr

structure ModelCapabilities where
  text : Bool
  vision : Bool
  image : Bool
  tool_use : Bool
  structured_output : Bool
  reasoning : Bool
  audio_in : Option Bool := none
  audio_out : Option Bool := none
  video : Option Bool := none
  video_in : Option Bool := none
deriving DecidableEq, Repr

structure ModelMetadata where
  id : String
  displayName : String
  provider : String
  capabilities : ModelCapabilities
  family : Option String := none
  contextWindow : Option Int := none
  tokenPrices : Option TokenPrices := none
  videoPrices : Option (List (String × ℚ)) := none
  deprecated : Option Bool := none
  inPreview : Option Bool := none
  inputs : Option (List String) := none
deriving DecidableEq, Repr

structure EntitlementContext where
  provider : Option String := none
  apiKey : Option String := none
  apiKeyFingerprint : Option String := none
  accountId : Option String := none
  region : Option String := none
  environment : Option String := none
  tenantId : Option String := none
  userId : Option String := none
deriving DecidableEq, Repr

structure ModelModalities where
  text : Bool
  vision : Option Bool := none
  audioIn : Option Bool := none
  audioOut : Option Bool := none
  imageOut : Option Bool := none
  videoIn : Option Bool := none
  videoOut : Option Bool := none
deriving DecidableEq, Repr

structure ModelFeatures where
  tools : Option Bool := none
  jsonMode : Option Bool := none
  jsonSchema : Option Bool := none
  streaming : Option Bool := none
  batch : Option Bool := none
deriving DecidableEq, Repr

structure ModelLimits where
  contextTokens : Option Int := none
  maxOutputTokens : Option Int := none
deriving DecidableEq, Repr

structure ModelPricing where
  currency : String := "USD"
  inputPer1M : Option ℚ := none
  cachedInputPer1M : Option ℚ := none
  outputPer1M : Option ℚ := none
  extras : Option (List (String × ℚ)) := none
  effectiveAsOf : Option String := none
  source : Option String := none
deriving DecidableEq, Repr

structure ModelAvailability where
  entitled : Bool
  lastVerifiedAt : Option String := none
  confidence : Option String := none
  reason : Option String := none
deriving DecidableEq, Repr

structure ModelRecord where
  id : String
  provider : String
  providerModelId : String
  displayName : Option String
  modalities : ModelModalities
  features : ModelFeatures
  limits : Option ModelLimits
  tags : Option (List String)
  pricing : Option ModelPricing
  availability : ModelAvailability
deriving DecidableEq, Repr

structure GenerateInput where
  provider : String
  model : String
  messages : List String
  tools : Option (List String) := none
  toolChoice : Option String := none
  responseFormat : Option String := none
  temperature : Option ℚ := none
  topP : Option ℚ := none
  maxTokens : Option Int := none
  stream : Option Bool := none
  metadata : Option (List (String × String)) := none
deriving DecidableEq, Repr

structure GenerateOutput where
  text : Option String := none
  toolCalls : Option (List ToolCall) := none
  usage : Option Usage := none
  finishReason : Option String := none
  cost : Option CostBreakdown := none
  raw : Option String := none
deriving DecidableEq, Repr

structure ImageGenerateInput where
  provider : String
  model : String
  prompt : String
  size : Option String := none
  inputImages : Option (List String) := none
  parameters : Option String := none
deriving DecidableEq, Repr

structure ImageGenerateOutput where
  mime : String
  data : String
  images : Option (List String) := none
  raw : Option String := none
deriving DecidableEq, Repr

structure MeshGenerateInput where
  provider : String
  model : String
  prompt : String
  inputImages : Option (List String) := none
  format : Option String := none
deriving DecidableEq, Repr

structure MeshGenerateOutput where
  data : String
  format : Option String := none
  raw : Option String := none
deriving DecidableEq, Repr

structure SpeechGenerateInput where
  provider : String
  model : String
  text : String
  voice : Option String := none
  responseFormat : Option String := none
  format : Option String := none
  speed : Option ℚ := none
  parameters : Option String := none
  metadata : Option (List (String × String)) := none
deriving DecidableEq, Repr

structure SpeechGenerateOutput where
  mime : String
  data : String
  raw : Option String := none
deriving DecidableEq, Repr

/-- Transcript segment/word; the source only reads its `end` attribute
(renamed `endSec` here since `end` is a Lean keyword). -/
structure TranscriptSegment where
  startSec : Option ℚ := none
  endSec : Option ℚ := none
  text : Option String := none
deriving DecidableEq, Repr

structure TranscribeInput where
  provider : String
  model : String
  audio : String
  language : Option String := none
  prompt : Option String := none
  temperature : Option ℚ := none
  responseFormat : Option String := none
  timestampGranularities : Option (List String) := none
  metadata : Option (List (String × String)) := none
deriving DecidableEq, Repr

structure TranscribeOutput where
  text : Option String := none
  language : Option String := none
  duration : Option ℚ := none
  segments : Option (List TranscriptSegment) := none
  words : Option (List TranscriptSegment) := none
  raw : Option String := none
  cost : Option CostBreakdown := none
deriving DecidableEq, Repr

structure StreamChunk where
  type : String
  textDelta : Option String := none
  call : Option ToolCall := none
  delta : Option String := none
  usage : Option Usage := none
  finishReason : Option String := none
  cost : Option CostBreakdown := none
  error : Option String := none
deriving DecidableEq, Repr

/-- Python `str.strip()`: drop whitespace from both ends (defined on the
character list so it evaluates inside the kernel). -/
def pyStrip (s : String) : String :=
  ⟨((s.data.dropWhile Char.isWhitespace).reverse.dropWhile
      Char.isWhitespace).reverse⟩

/-- Python `str.startswith(pre)` (kernel-evaluable). -/
def pyStartsWith (s pre : String) : Bool :=
  pre.data.isPrefixOf s.data

/-! ## Entitlements (`llmhub/entitlements.py`) -/

/-- `fingerprint_api_key`: empty for a missing/blank key, else the SHA-256
hex digest of the trimmed key. -/
def fingerprint_api_key : Option String → String
  | none => ""
  | some k => if pyStrip k = "" then "" else sha256Hex (pyStrip k)

/-! ## Key pool (`ai_kit/hub.py` `_KeyPool`, `Kit._collect_keys`)

The pool's mutable cursor becomes explicit: `next` returns the drawn key
together with the advanced pool. -/

structure KeyPool where
  keys : List String
  index : Nat
deriving DecidableEq, Repr

/-- `_KeyPool.next`. -/
def KeyPool.next (p : KeyPool) : String × KeyPool :=
  if p.keys = [] then ("", p)
  else (p.keys.getD (p.index % p.keys.length) "",
        ⟨p.keys, (p.index + 1) % p.keys.length⟩)

/-- Result of the `k+1`-st `next()` call on `p` (so `draw p 0` is call 1). -/
def KeyPool.draw (p : KeyPool) : Nat → String
  | 0 => p.next.1
  | k + 1 => KeyPool.draw p.next.2 k

/-- Loop body of `Kit._collect_keys`: `acc` plays both the `seen` set and
the ordered result list (they always hold the same elements). -/
def collect_keys_aux : List String → List String → List String
  | [], acc => acc
  | raw :: rest, acc =>
    let trimmed := pyStrip raw
    if trimmed = "" ∨ trimmed ∈ acc then collect_keys_aux rest acc
    else collect_keys_aux rest (acc ++ [trimmed])

/-- `Kit._collect_keys` on a config with fields `api_key` (default `""`)
and `api_keys` (default `[]`). -/
def collect_keys (api_key : String) (api_keys : List String) : List String :=
  collect_keys_aux (api_key :: api_keys) []

/-! ## Curated pricing metadata (`ai_kit/pricing.py`)

The scraped/curated model table is loaded from JSON files on disk; that
I/O is out of scope, so every pricing operation takes the loaded table as
an explicit `List CuratedEntry` argument.  A `CuratedEntry` models one JSON
object: `none` on an outer `Option` means the key is absent.  In
`CuratedPrices` the inner `Option` distinguishes a JSON `null` value from a
number, matching `dict.get(key, default)` versus `dict.get(key)`. -/

structure CuratedCaps where
  text : Option Bool := none
  vision : Option Bool := none
  image : Option Bool := none
  tool_use : Option Bool := none
  structured_output : Option Bool := none
  reasoning : Option Bool := none
  audio_in : Option Bool := none
  audio_out : Option Bool := none
  video : Option Bool := none
  video_in : Option Bool := none
deriving DecidableEq, Repr

structure CuratedPrices where
  input : Option (Option ℚ) := none
  output : Option (Option ℚ) := none
deriving DecidableEq, Repr

/-- Audio pricing sub-dict; the key aliases (`perMinute`/`per_minute`/
`perMinuteUsd`, likewise for seconds) are collapsed into one field each. -/
structure AudioPrices where
  perMinute : Option ℚ := none
  perSecond : Option ℚ := none
deriving DecidableEq, Repr

structure CuratedEntry where
  provider : Option String := none
  id : Option String := none
  displayName : Option String := none
  family : Option String := none
  capabilities : Option CuratedCaps := none
  tokenPrices : Option CuratedPrices := none
  videoPrices : Option (List (String × ℚ)) := none
  contextWindow : Option Int := none
  deprecated : Option Bool := none
  inPreview : Option Bool := none
  audioPrices : Option AudioPrices := none
deriving DecidableEq, Repr

/-- `pricing._normalize_model_id`: strip a `provider/` prefix. -/
def _normalize_model_id (provider model_id : String) : String :=
  let pre := provider ++ "/"
  if pyStartsWith model_id pre then (model_id.toList.drop pre.length).asString
  else model_id

/-- Loop of `pricing.find_curated_model`: exact id match wins immediately,
otherwise keep the longest id that is a prefix of the normalized id. -/
def find_curated_aux (provider normalized : String) :
    List CuratedEntry → Option CuratedEntry → Option CuratedEntry
  | [], best => best
  | e :: rest, best =>
    if e.provider ≠ some provider then find_curated_aux provider normalized rest best
    else
      let entryId := e.id.getD ""
      if entryId = normalized then some e
      else
        let better :=
          match best with
          | none => true
          | some b => decide (entryId.length > (b.id.getD "").length)
        if pyStartsWith normalized entryId && better then
          find_curated_aux provider normalized rest (some e)
        else find_curated_aux provider normalized rest best

/-- `pricing.find_curated_model` over an explicit table. -/
def find_curated_model (curated : List CuratedEntry) (provider model_id : String) :
    Option CuratedEntry :=
  find_curated_aux provider (_normalize_model_id provider model_id) curated none

/-- Python `a or b` on a string with a string default. -/
def pyOrStr (o : Option String) (d : String) : String :=
  match o with
  | some s => if s = "" then d else s
  | none => d

/-- Python `a or b` on a string with an optional-string default. -/
def pyOrOptStr (o : Option String) (d : Option String) : Option String :=
  match o with
  | some s => if s = "" then d else some s
  | none => d

/-- `pricing.apply_curated_metadata`: overlay one catalog entry with the
curated table (a fresh value, never in-place mutation). -/
def apply_curated_metadata (curated : List CuratedEntry) (model : ModelMetadata) :
    ModelMetadata :=
  match find_curated_model curated model.provider model.id with
  | none => model
  | some c =>
    let capabilities :=
      match c.capabilities with
      | none => model.capabilities
      | some cc =>
        { text := cc.text.getD model.capabilities.text
          vision := cc.vision.getD model.capabilities.vision
          image := cc.image.getD model.capabilities.image
          tool_use := cc.tool_use.getD model.capabilities.tool_use
          structured_output :=
            cc.structured_output.getD model.capabilities.structured_output
          reasoning := cc.reasoning.getD model.capabilities.reasoning
          audio_in := some (cc.audio_in.getD (model.capabilities.audio_in.getD false))
          audio_out := some (cc.audio_out.getD (model.capabilities.audio_out.getD false))
          video := some (cc.video.getD (model.capabilities.video.getD false))
          video_in := some (cc.video_in.getD (model.capabilities.video_in.getD false)) }
    let token_prices :=
      match c.tokenPrices with
      | none => model.tokenPrices
      | some cp =>
        some { input := match cp.input with
                        | some v => v
                        | none => model.tokenPrices.bind (fun tp => tp.input)
               output := match cp.output with
                         | some v => v
                         | none => model.tokenPrices.bind (fun tp => tp.output) }
    let video_prices :=
      match c.videoPrices with
      | some vp => some vp
      | none => model.videoPrices
    let context_window :=
      match c.contextWindow with
      | some n => some n
      | none => model.contextWindow
    { model with
      displayName := pyOrStr c.displayName model.displayName
      family := pyOrOptStr c.family model.family
      capabilities := capabilities
      contextWindow := context_window
      tokenPrices := token_prices
      videoPrices := video_prices
      deprecated := some (c.deprecated.getD (model.deprecated.getD false))
      inPreview := some (c.inPreview.getD (model.inPreview.getD false)) }

/-- `pricing.lookup_token_prices`. -/
def lookup_token_prices (curated : List CuratedEntry) (provider model_id : String) :
    Option TokenPrices :=
  match find_curated_model curated provider model_id with
  | none => none
  | some c =>
    match c.tokenPrices with
    | none => none
    | some cp => some { input := cp.input.getD none, output := cp.output.getD none }

/-- Python `round(x, 6)`. -/
def round6 (x : ℚ) : ℚ := (round (x * 1000000) : ℤ) / 1000000

/-- `pricing.estimate_cost`: a cost breakdown only when the usage carries a
token count and the curated table yields a nonzero rate; never raises. -/
def estimate_cost (curated : List CuratedEntry) (provider model_id : String)
    (usage : Option Usage) : Option CostBreakdown :=
  match usage with
  | none => none
  | some u =>
    if u.inputTokens = none ∧ u.outputTokens = none then none
    else
      match lookup_token_prices curated provider model_id with
      | none => none
      | some pricing =>
        let input_rate := pricing.input.getD 0
        let output_rate := pricing.output.getD 0
        if input_rate = 0 ∧ output_rate = 0 then none
        else
          let input_tokens := u.inputTokens.getD 0
          let output_tokens := u.outputTokens.getD 0
          let input_cost := (input_tokens : ℚ) * input_rate / 1000000
          let output_cost := (output_tokens : ℚ) * output_rate / 1000000
          some { input_cost_usd := some (round6 input_cost)
                 output_cost_usd := some (round6 output_cost)
                 total_cost_usd := some (round6 (input_cost + output_cost))
                 pricing_per_million := some pricing }

/-- `pricing._audio_price_per_minute` (key aliases collapsed, see
`AudioPrices`). -/
def _audio_price_per_minute (c : CuratedEntry) : Option ℚ :=
  match c.audioPrices with
  | none => none
  | some ap =>
    match ap.perMinute with
    | some pm => some pm
    | none =>
      match ap.perSecond with
      | some ps => some (ps * 60)
      | none => none

/-- `pricing.estimate_transcribe_cost`. -/
def estimate_transcribe_cost (curated : List CuratedEntry)
    (provider model_id : String) (duration_seconds : Option ℚ) :
    Option CostBreakdown :=
  match duration_seconds with
  | none => none
  | some d =>
    if d ≤ 0 then none
    else
      match find_curated_model curated provider model_id with
      | none => none
      | some c =>
        match _audio_price_per_minute c with
        | none => none
        | some rate =>
          if rate ≤ 0 then none
          else
            let total := round6 (d / 60 * rate)
            some { input_cost_usd := some total
                   output_cost_usd := some 0
                   total_cost_usd := some total }

/-! ## Adapters as capability objects

Per the architecture, a provider adapter is a black-box capability object;
each capability that may be absent (`hasattr` checks in `hub.py`) is an
`Option`.  A capability invocation either returns a value or raises.  A
stream is the finite sequence of chunks produced by consuming the
generator, plus the exception that ended it, if any. -/

structure StreamResult where
  chunks : List StreamChunk
  terminal : Option Exn := none
deriving DecidableEq, Repr

structure Adapter where
  list_models : Except Exn (List ModelMetadata)
  generate : Option (GenerateInput → Except Exn GenerateOutput) := none
  generate_image : Option (ImageGenerateInput → Except Exn ImageGenerateOutput) := none
  generate_mesh : Option (MeshGenerateInput → Except Exn MeshGenerateOutput) := none
  generate_speech : Option (SpeechGenerateInput → Except Exn SpeechGenerateOutput) := none
  transcribe : Option (TranscribeInput → Except Exn TranscribeOutput) := none
  stream_generate : Option (GenerateInput → StreamResult) := none

/-! ## Model registry (`ai_kit/registry.py`)

The class splits into an immutable configuration (`ModelRegistry`) and the
mutable dictionaries (`RegistryState`), threaded explicitly.  Wall-clock
reads (`_now_timestamp`) become the `now : Int` argument of each operation;
one operation observes a single instant. -/

structure CacheEntry where
  data : List ModelMetadata
  fetched_at : Int
  expires_at : Int
deriving DecidableEq, Repr

structure ModelRegistry where
  adapters : List (String × Adapter)
  adapter_factory : Option (String → Option EntitlementContext → Option Adapter) := none
  ttl_seconds : Int := 1800
  learned_ttl_seconds : Int := 1200

structure RegistryState where
  cache : List (String × CacheEntry) := []
  learned : List (String × (Int × String)) := []
deriving DecidableEq, Repr

/-- One pipe-joined component drawn from an optional entitlement field. -/
def entField (ent : Option EntitlementContext)
    (f : EntitlementContext → Option String) : String :=
  match ent with
  | some e => (f e).getD ""
  | none => ""

/-- Fingerprint component of `ModelRegistry._cache_key`:
`entitlement.apiKeyFingerprint or fingerprint_api_key(entitlement.apiKey)
or "default"`. -/
def _cache_fingerprint (ent : Option EntitlementContext) : String :=
  match ent with
  | none => "default"
  | some e =>
    let f1 := e.apiKeyFingerprint.getD ""
    let f2 := if f1 ≠ "" then f1 else fingerprint_api_key e.apiKey
    if f2 ≠ "" then f2 else "default"

/-- `ModelRegistry._cache_key`. -/
def _cache_key (provider : String) (ent : Option EntitlementContext) : String :=
  String.intercalate "|"
    [provider, _cache_fingerprint ent,
     entField ent (fun e => e.accountId),
     entField ent (fun e => e.region),
     entField ent (fun e => e.environment),
     entField ent (fun e => e.tenantId),
     entField ent (fun e => e.userId)]

/-- `ModelRegistry._learned_key`. -/
def _learned_key (provider : String) (ent : Option EntitlementContext)
    (model_id : String) : String :=
  _cache_key provider ent ++ "|" ++ model_id

/-- `registry._learn_reason`: a reason string only for durable failures
(not-found/validation kinds, or a 400/403/404 upstream status). -/
def _learn_reason : Exn → Option String
  | .kit p =>
    if p.kind = .PROVIDER_NOT_FOUND ∨ p.kind = .VALIDATION then some p.message
    else
      match p.upstreamStatus with
      | some s => if s = 400 ∨ s = 403 ∨ s = 404 then some p.message else none
      | none => none
  | .other _ => none

/-- `ModelRegistry.learn_model_unavailable`.  Python's `if not reason:
return` is a string-truthiness check: both a missing reason and an empty
reason string record nothing. -/
def ModelRegistry.learn_model_unavailable (reg : ModelRegistry)
    (st : RegistryState) (ent : Option EntitlementContext)
    (provider model_id : String) (err : Exn) (now : Int) : RegistryState :=
  match _learn_reason err with
  | none => st
  | some reason =>
    if reason = "" then st
    else
      { st with
        learned := insertA (_learned_key provider ent model_id)
          (now + reg.learned_ttl_seconds, reason) st.learned }

/-- `ModelRegistry._learned_status`: reads the learned map and lazily purges
an entry whose expiry is strictly past. -/
def ModelRegistry._learned_status (_reg : ModelRegistry) (st : RegistryState)
    (provider : String) (ent : Option EntitlementContext) (model_id : String)
    (now : Int) : Option String × RegistryState :=
  let key := _learned_key provider ent model_id
  match lookupA key st.learned with
  | none => (none, st)
  | some entry =>
    if entry.1 < now then (none, { st with learned := eraseA key st.learned })
    else (some entry.2, st)

/-- `datetime.fromtimestamp(...).isoformat()`; the calendar rendering is
abstracted to the decimal timestamp, which is injective like the original. -/
def _to_iso (t : Int) : String := toString t

/-- `ModelRegistry._to_record`. -/
def ModelRegistry._to_record (reg : ModelRegistry) (st : RegistryState)
    (model : ModelMetadata) (provider : String) (fetched_at : Int)
    (ent : Option EntitlementContext) (now : Int) : ModelRecord × RegistryState :=
  let modalities : ModelModalities :=
    { text := model.capabilities.text
      vision := some model.capabilities.vision
      audioIn := model.capabilities.audio_in
      audioOut := model.capabilities.audio_out
      imageOut := some model.capabilities.image }
  let features : ModelFeatures :=
    { tools := some model.capabilities.tool_use
      jsonMode := some model.capabilities.structured_output
      jsonSchema := some model.capabilities.structured_output
      streaming := some true }
  let limits : Option ModelLimits :=
    match model.contextWindow with
    | some cw => if cw = 0 then none else some { contextTokens := some cw }
    | none => none
  let pricing : Option ModelPricing :=
    match model.tokenPrices with
    | some tp =>
      some { currency := "USD", inputPer1M := tp.input, outputPer1M := tp.output,
             source := some "config" }
    | none => none
  let tags : List String :=
    (if model.inPreview.getD false then ["preview"] else []) ++
    (if model.deprecated.getD false then ["deprecated"] else [])
  let availability0 : ModelAvailability :=
    { entitled := true, confidence := some "listed",
      lastVerifiedAt := some (_to_iso fetched_at) }
  let statusRead := reg._learned_status st provider ent model.id now
  let availability :=
    match statusRead.1 with
    | some reason =>
      { availability0 with
        entitled := false, confidence := some "learned", reason := some reason }
    | none => availability0
  ({ id := provider ++ ":" ++ model.id
     provider := provider
     providerModelId := model.id
     displayName := some model.displayName
     modalities := modalities
     features := features
     limits := limits
     tags := if tags = [] then none else some tags
     pricing := pricing
     availability := availability }, statusRead.2)

/-- `ModelRegistry._adapter_for`. -/
def ModelRegistry._adapter_for (reg : ModelRegistry) (provider : String)
    (ent : Option EntitlementContext) : Option Adapter :=
  match reg.adapter_factory with
  | some f => f provider ent
  | none => lookupA provider reg.adapters

/-- `ModelRegistry._fetch_and_cache`: resolve an adapter, fetch the live
catalog, overlay curated metadata, and store with `expires_at = now + ttl`. -/
def ModelRegistry._fetch_and_cache (reg : ModelRegistry)
    (curated : List CuratedEntry) (st : RegistryState) (provider : String)
    (ent : Option EntitlementContext) (key : String) (now : Int) :
    Except Exn (CacheEntry × RegistryState) :=
  match reg._adapter_for provider ent with
  | none =>
    .error (.kit { kind := .VALIDATION,
                   message := "Provider " ++ provider ++ " is not configured" })
  | some adapter =>
    match adapter.list_models with
    | .error e => .error e
    | .ok models =>
      let models := models.map (apply_curated_metadata curated)
      let entry : CacheEntry :=
        { data := models, fetched_at := now, expires_at := now + reg.ttl_seconds }
      .ok (entry, { st with cache := insertA key entry st.cache })

/-- `ModelRegistry._for_provider`: serve a live cache hit unless `refresh`,
else fetch; on a fetch failure fall back to the cached entry, but only when
that entry is itself still unexpired. -/
def ModelRegistry._for_provider (reg : ModelRegistry)
    (curated : List CuratedEntry) (st : RegistryState) (provider : String)
    (refresh : Bool) (ent : Option EntitlementContext) (now : Int) :
    Except Exn CacheEntry × RegistryState :=
  let key := _cache_key provider ent
  let hit : Option CacheEntry :=
    if refresh then none
    else
      match lookupA key st.cache with
      | some c => if c.expires_at > now then some c else none
      | none => none
  match hit with
  | some c => (.ok c, st)
  | none =>
    match reg._fetch_and_cache curated st provider ent key now with
    | .ok entryst => (.ok entryst.1, entryst.2)
    | .error e =>
      match lookupA key st.cache with
      | some c => if c.expires_at > now then (.ok c, st) else (.error e, st)
      | none => (.error e, st)

/-- `ModelRegistry._resolve_providers`. -/
def ModelRegistry._resolve_providers (reg : ModelRegistry)
    (providers : Option (List String)) (ent : Option EntitlementContext) :
    List String :=
  match providers with
  | some (p :: ps) => p :: ps
  | _ =>
    match ent with
    | some e =>
      match e.provider with
      | some p => if p = "" then reg.adapters.map (fun a => a.1) else [p]
      | none => reg.adapters.map (fun a => a.1)
    | none => reg.adapters.map (fun a => a.1)

/-- Per-provider loop of `ModelRegistry._entries_for_providers`; an error
aborts the loop but keeps the cache writes already made. -/
def entriesLoop (reg : ModelRegistry) (curated : List CuratedEntry)
    (refresh : Bool) (ent : Option EntitlementContext) (now : Int) :
    List String → RegistryState →
    Except Exn (List (String × CacheEntry)) × RegistryState
  | [], st => (.ok [], st)
  | p :: rest, st =>
    match reg._for_provider curated st p refresh ent now with
    | (.ok entry, st1) =>
      match entriesLoop reg curated refresh ent now rest st1 with
      | (.ok l, st2) => (.ok ((p, entry) :: l), st2)
      | (.error e, st2) => (.error e, st2)
    | (.error e, st1) => (.error e, st1)

/-- `ModelRegistry._entries_for_providers`. -/
def ModelRegistry._entries_for_providers (reg : ModelRegistry)
    (curated : List CuratedEntry) (st : RegistryState)
    (providers : Option (List String)) (refresh : Bool)
    (ent : Option EntitlementContext) (now : Int) :
    Except Exn (List (String × CacheEntry)) × RegistryState :=
  match reg._resolve_providers providers ent with
  | [] =>
    (.error (.kit { kind := .VALIDATION, message := "No providers configured" }),
     st)
  | p :: ps => entriesLoop reg curated refresh ent now (p :: ps) st

/-- Stable insertion step for Python `sorted` (Timsort is stable; equal
keys keep their original order). -/
def insSorted {α : Type} (le : α → α → Bool) (x : α) : List α → List α
  | [] => [x]
  | y :: ys => if le y x then y :: insSorted le x ys else x :: y :: ys

def sortStable {α : Type} (le : α → α → Bool) (l : List α) : List α :=
  l.foldl (fun acc x => insSorted le x acc) []

/-- Sort key of `list_models`: `(m.provider, m.displayName)`. -/
def modelLE (a b : ModelMetadata) : Bool :=
  a.provider < b.provider || (a.provider = b.provider && a.displayName ≤ b.displayName)

/-- Sort key of `list_model_records`: `(r.provider, r.displayName or "")`. -/
def recordLE (a b : ModelRecord) : Bool :=
  a.provider < b.provider ||
    (a.provider = b.provider && a.displayName.getD "" ≤ b.displayName.getD "")

/-- `ModelRegistry.list_models`. -/
def ModelRegistry.list_models (reg : ModelRegistry)
    (curated : List CuratedEntry) (st : RegistryState)
    (providers : Option (List String)) (refresh : Bool)
    (ent : Option EntitlementContext) (now : Int) :
    Except Exn (List ModelMetadata) × RegistryState :=
  match reg._entries_for_providers curated st providers refresh ent now with
  | (.error e, st1) => (.error e, st1)
  | (.ok entries, st1) =>
    (.ok (sortStable modelLE ((entries.map (fun pe => pe.2.data)).flatten)), st1)

/-- Inner loop of `list_model_records` over one entry's models, threading
the registry state mutated by the lazy learned-map purge. -/
def recordsForModels (reg : ModelRegistry) (provider : String) (fetched_at : Int)
    (ent : Option EntitlementContext) (now : Int) :
    List ModelMetadata → RegistryState → List ModelRecord × RegistryState
  | [], st => ([], st)
  | m :: ms, st =>
    let rs1 := reg._to_record st m provider fetched_at ent now
    let rest := recordsForModels reg provider fetched_at ent now ms rs1.2
    (rs1.1 :: rest.1, rest.2)

/-- Outer loop of `list_model_records` over the per-provider entries. -/
def recordsForEntries (reg : ModelRegistry) (ent : Option EntitlementContext)
    (now : Int) :
    List (String × CacheEntry) → RegistryState →
    List ModelRecord × RegistryState
  | [], st => ([], st)
  | (p, entry) :: rest, st =>
    let here := recordsForModels reg p entry.fetched_at ent now entry.data st
    let further := recordsForEntries reg ent now rest here.2
    (here.1 ++ further.1, further.2)

/-- `ModelRegistry.list_model_records`. -/
def ModelRegistry.list_model_records (reg : ModelRegistry)
    (curated : List CuratedEntry) (st : RegistryState)
    (providers : Option (List String)) (refresh : Bool)
    (ent : Option EntitlementContext) (now : Int) :
    Except Exn (List ModelRecord) × RegistryState :=
  match reg._entries_for_providers curated st providers refresh ent now with
  | (.error e, st1) => (.error e, st1)
  | (.ok entries, st1) =>
    let built := recordsForEntries reg ent now entries st1
    (.ok (sortStable recordLE built.1), built.2)

/-! ## Kit orchestrator (`python-inference/src/ai_kit/hub.py`)

The Kit splits into a static part built at construction time — the static
adapter map, the configured provider names, the key pools' key lists, the
external adapter-factory override — and the mutable part (`KitState`): the
pools' cursors and the registry dictionaries.  Per-request adapter
construction (`OpenAIAdapter(OpenAIConfig(api_key=..., ...))` etc. for the
seven known providers, copying the base config with only the key replaced)
builds black-box capability objects out of scope here, so it is represented
by the `rebuild` field: the fresh adapter for a configured provider and an
API key, `none` for an unknown provider. -/

structure Kit where
  adapters : List (String × Adapter)
  providers : List String
  key_pools : List (String × KeyPool)
  external_adapter_factory :
    Option (String → Option EntitlementContext → Option Adapter) := none
  rebuild : String → String → Option Adapter := fun _ _ => none
  registry_ttl_seconds : Int := 1800
  learned_ttl_seconds : Int := 1200

/-- The registry built in `Kit.__init__`. -/
def Kit.registry (k : Kit) : ModelRegistry :=
  { adapters := k.adapters
    ttl_seconds := k.registry_ttl_seconds
    learned_ttl_seconds := k.learned_ttl_seconds }

structure KitState where
  pools : List (String × KeyPool) := []
  reg : RegistryState := {}

/-- `Kit._entitlement_for_provider`: draw a key from the provider's pool
(advancing the cursor even when the draw comes back empty) and fingerprint
it. -/
def Kit.entitlement_for_provider (_k : Kit)
    (pools : List (String × KeyPool)) (provider : String) :
    Option EntitlementContext × List (String × KeyPool) :=
  match lookupA provider pools with
  | none => (none, pools)
  | some pool =>
    let draw := pool.next
    let pools1 := insertA provider draw.2 pools
    if draw.1 = "" then (none, pools1)
    else
      (some { provider := some provider
              apiKey := some draw.1
              apiKeyFingerprint := some (fingerprint_api_key (some draw.1)) },
       pools1)

/-- `Kit._adapter_factory`: external override first, then the static
adapter when no entitled key, then a fresh per-request adapter built from
the provider's base config with the entitled key substituted. -/
def Kit.adapter_factory (k : Kit) (provider : String)
    (ent : Option EntitlementContext) : Option Adapter :=
  let ext :=
    match k.external_adapter_factory with
    | some f => f provider ent
    | none => none
  match ext with
  | some a => some a
  | none =>
    match ent with
    | none => lookupA provider k.adapters
    | some e =>
      match e.apiKey with
      | none => lookupA provider k.adapters
      | some key =>
        if key = "" then lookupA provider k.adapters
        else if provider ∈ k.providers then k.rebuild provider key
        else none

/-- `Kit._require_adapter`. -/
def Kit.require_adapter (k : Kit) (provider : String)
    (ent : Option EntitlementContext) : Except KitErrorPayload Adapter :=
  match k.adapter_factory provider ent with
  | some a => .ok a
  | none =>
    .error { kind := .VALIDATION,
             message := "Provider " ++ provider ++ " is not configured" }

/-- `hub._attach_cost`. -/
def _attach_cost (curated : List CuratedEntry) (input : GenerateInput)
    (output : GenerateOutput) : GenerateOutput :=
  match estimate_cost curated input.provider input.model output.usage with
  | none => output
  | some cost => { output with cost := some cost }

/-- Max-`end` scan of `hub._transcribe_duration_seconds` over one segment
list. -/
def maxEndScan (segs : List TranscriptSegment) (acc : Option ℚ) : Option ℚ :=
  segs.foldl
    (fun cur seg =>
      match seg.endSec with
      | some v =>
        match cur with
        | none => some v
        | some m => if v > m then some v else some m
      | none => cur)
    acc

/-- `hub._transcribe_duration_seconds`: a non-negative reported duration,
else the largest segment/word end time. -/
def _transcribe_duration_seconds (output : TranscribeOutput) : Option ℚ :=
  let fallback := maxEndScan (output.words.getD [])
    (maxEndScan (output.segments.getD []) none)
  match output.duration with
  | some d => if d ≥ 0 then some d else fallback
  | none => fallback

/-- `hub._attach_transcribe_cost`. -/
def _attach_transcribe_cost (curated : List CuratedEntry)
    (input : TranscribeInput) (output : TranscribeOutput) : TranscribeOutput :=
  if output.cost ≠ none then output
  else
    match estimate_transcribe_cost curated input.provider input.model
        (_transcribe_duration_seconds output) with
    | none => output
    | some cost => { output with cost := some cost }

/-- `hub._attach_cost_stream`: re-yield every chunk, attaching a cost to a
`message_end` chunk when one can be estimated; an exception from the source
stream passes through the generator untouched. -/
def _attach_cost_stream (curated : List CuratedEntry) (sr : StreamResult)
    (provider model : String) : StreamResult :=
  { chunks :=
      sr.chunks.map
        (fun chunk =>
          if chunk.type = "message_end" then
            match estimate_cost curated provider model chunk.usage with
            | some cost => { chunk with cost := some cost }
            | none => chunk
          else chunk)
    terminal := sr.terminal }

/-! ### Capability dispatch

Each `Kit` capability method resolves an entitlement (advancing the pool),
resolves an adapter, checks the capability, invokes it, and on failure
classifies, learns, and re-raises — collapsing the `*_with_context`
split of the source, whose two branches share this body verbatim.

The trailing `Bool` of each result is a ghost observation recording whether
the adapter capability was actually invoked, used to state that a
capability-absence failure constructs no call.  A missing un-checked
attribute (`adapter.generate` under `try`) surfaces as the `AttributeError`
the Python attribute lookup raises. -/

def Kit.generate (k : Kit) (curated : List CuratedEntry) (st : KitState)
    (input : GenerateInput) (now : Int) :
    Except KitErrorPayload GenerateOutput × KitState × Bool :=
  let entPools := k.entitlement_for_provider st.pools input.provider
  let ent := entPools.1
  let st := { st with pools := entPools.2 }
  match k.require_adapter input.provider ent with
  | .error p => (.error p, st, false)
  | .ok adapter =>
    match adapter.generate with
    | none =>
      let ke := to_kit_error (.other "AttributeError: generate")
      (.error ke,
       { st with
         reg := k.registry.learn_model_unavailable st.reg ent input.provider
           input.model (.kit ke) now },
       false)
    | some f =>
      match f input with
      | .ok output => (.ok (_attach_cost curated input output), st, true)
      | .error err =>
        let ke := to_kit_error err
        (.error ke,
         { st with
           reg := k.registry.learn_model_unavailable st.reg ent input.provider
             input.model (.kit ke) now },
         true)

def Kit.generate_image (k : Kit) (_curated : List CuratedEntry) (st : KitState)
    (input : ImageGenerateInput) (now : Int) :
    Except KitErrorPayload ImageGenerateOutput × KitState × Bool :=
  let entPools := k.entitlement_for_provider st.pools input.provider
  let ent := entPools.1
  let st := { st with pools := entPools.2 }
  match k.require_adapter input.provider ent with
  | .error p => (.error p, st, false)
  | .ok adapter =>
    match adapter.generate_image with
    | none =>
      (.error { kind := .UNSUPPORTED,
                message := "Provider " ++ input.provider ++
                  " does not support image generation" },
       st, false)
    | some f =>
      match f input with
      | .ok output => (.ok output, st, true)
      | .error err =>
        let ke := to_kit_error err
        (.error ke,
         { st with
           reg := k.registry.learn_model_unavailable st.reg ent input.provider
             input.model (.kit ke) now },
         true)

def Kit.generate_mesh (k : Kit) (_curated : List CuratedEntry) (st : KitState)
    (input : MeshGenerateInput) (now : Int) :
    Except KitErrorPayload MeshGenerateOutput × KitState × Bool :=
  let entPools := k.entitlement_for_provider st.pools input.provider
  let ent := entPools.1
  let st := { st with pools := entPools.2 }
  match k.require_adapter input.provider ent with
  | .error p => (.error p, st, false)
  | .ok adapter =>
    match adapter.generate_mesh with
    | none =>
      (.error { kind := .UNSUPPORTED,
                message := "Provider " ++ input.provider ++
                  " does not support mesh generation" },
       st, false)
    | some f =>
      match f input with
      | .ok output => (.ok output, st, true)
      | .error err =>
        let ke := to_kit_error err
        (.error ke,
         { st with
           reg := k.registry.learn_model_unavailable st.reg ent input.provider
             input.model (.kit ke) now },
         true)

def Kit.generate_speech (k : Kit) (_curated : List CuratedEntry) (st : KitState)
    (input : SpeechGenerateInput) (now : Int) :
    Except KitErrorPayload SpeechGenerateOutput × KitState × Bool :=
  let entPools := k.entitlement_for_provider st.pools input.provider
  let ent := entPools.1
  let st := { st with pools := entPools.2 }
  match k.require_adapter input.provider ent with
  | .error p => (.error p, st, false)
  | .ok adapter =>
    match adapter.generate_speech with
    | none =>
      (.error { kind := .UNSUPPORTED,
                message := "Provider " ++ input.provider ++
                  " does not support speech generation" },
       st, false)
    | some f =>
      match f input with
      | .ok output => (.ok output, st, true)
      | .error err =>
        let ke := to_kit_error err
        (.error ke,
         { st with
           reg := k.registry.learn_model_unavailable st.reg ent input.provider
             input.model (.kit ke) now },
         true)

def Kit.transcribe (k : Kit) (curated : List CuratedEntry) (st : KitState)
    (input : TranscribeInput) (now : Int) :
    Except KitErrorPayload TranscribeOutput × KitState × Bool :=
  let entPools := k.entitlement_for_provider st.pools input.provider
  let ent := entPools.1
  let st := { st with pools := entPools.2 }
  match k.require_adapter input.provider ent with
  | .error p => (.error p, st, false)
  | .ok adapter =>
    match adapter.transcribe with
    | none =>
      (.error { kind := .UNSUPPORTED,
                message := "Provider " ++ input.provider ++
                  " does not support transcription" },
       st, false)
    | some f =>
      match f input with
      | .ok output => (.ok (_attach_transcribe_cost curated input output), st, true)
      | .error err =>
        let ke := to_kit_error err
        (.error ke,
         { st with
           reg := k.registry.learn_model_unavailable st.reg ent input.provider
             input.model (.kit ke) now },
         true)

/-- `Kit.stream_generate`: no `try`, no capability check, no learning — the
stream (or the eager `AttributeError` for a missing capability) is returned
with every error unclassified. -/
def Kit.stream_generate (k : Kit) (curated : List CuratedEntry) (st : KitState)
    (input : GenerateInput) : Except Exn StreamResult × KitState :=
  let entPools := k.entitlement_for_provider st.pools input.provider
  let ent := entPools.1
  let st := { st with pools := entPools.2 }
  match k.require_adapter input.provider ent with
  | .error p => (.error (.kit p), st)
  | .ok adapter =>
    match adapter.stream_generate with
    | none => (.error (.other "AttributeError: stream_generate"), st)
    | some f =>
      (.ok (_attach_cost_stream curated (f input) input.provider input.model), st)

/-! ## Concrete fixtures

Small concrete states used by witnesses and counterexamples. -/

def capsFix : ModelCapabilities :=
  { text := true, vision := false, image := false, tool_use := false,
    structured_output := false, reasoning := false }

def modelFix : ModelMetadata :=
  { id := "m1", displayName := "M1", provider := "p", capabilities := capsFix }

/-- A durable not-found failure, as an adapter would raise it. -/
def nfPayload : KitErrorPayload :=
  { kind := .PROVIDER_NOT_FOUND, message := "no such model",
    upstreamStatus := some 404 }

/-- An adapter whose every capability fails. -/
def failAdapter : Adapter :=
  { list_models := .error (.other "boom")
    generate := some (fun _ => .error (.kit nfPayload))
    generate_image := some (fun _ => .error (.kit nfPayload))
    generate_mesh := some (fun _ => .error (.kit nfPayload))
    generate_speech := some (fun _ => .error (.kit nfPayload))
    transcribe := some (fun _ => .error (.kit nfPayload))
    stream_generate := some (fun _ => { chunks := [], terminal := some (.kit nfPayload) }) }

/-- An adapter exposing only `list_models` (every optional capability
absent). -/
def bareAdapter : Adapter := { list_models := .ok [] }

/-- An adapter whose catalog fetch succeeds with one model. -/
def okAdapter : Adapter := { list_models := .ok [modelFix] }

def regOk : ModelRegistry :=
  { adapters := [("p", okAdapter)], ttl_seconds := 10 }

def regFail : ModelRegistry :=
  { adapters := [("p", failAdapter)], ttl_seconds := 10 }

def entryFix : CacheEntry :=
  { data := [modelFix], fetched_at := 0, expires_at := 10 }

def stCached : RegistryState :=
  { cache := [("p|default|||||", entryFix)] }

def kitFail : Kit :=
  { adapters := [("p", failAdapter)], providers := ["p"], key_pools := [] }

def kitBare : Kit :=
  { adapters := [("p", bareAdapter)], providers := ["p"], key_pools := [] }

def inpG : GenerateInput := { provider := "p", model := "m1", messages := [] }

def inpImg : ImageGenerateInput := { provider := "p", model := "m1", prompt := "x" }

def inpMesh : MeshGenerateInput := { provider := "p", model := "m1", prompt := "x" }

def inpSpeech : SpeechGenerateInput := { provider := "p", model := "m1", text := "x" }

def inpTr : TranscribeInput := { provider := "p", model := "m1", audio := "x" }

/-- A one-entry curated table pricing model `m1` of provider `p`. -/
def curatedFix : List CuratedEntry :=
  [{ provider := some "p", id := some "m1",
     tokenPrices := some { input := some (some 5), output := some (some 10) } }]

end AiKit

namespace AiKit

/-! # Theorems -/

/-! ## Key-pool helper lemmas -/

theorem collect_keys_aux_nodup :
    ∀ (l acc : List String), acc.Nodup → (collect_keys_aux l acc).Nodup := by
  intro l
  induction l with
  | nil => intro acc h; exact h
  | cons raw rest ih =>
    intro acc h
    rw [collect_keys_aux]
    by_cases hc : pyStrip raw = "" ∨ pyStrip raw ∈ acc
    · simpa [hc] using ih acc h
    · have hnotmem : pyStrip raw ∉ acc := fun hm => hc (Or.inr hm)
      simp only [if_neg hc]
      exact ih _ (by simp [List.nodup_append, h, hnotmem])

theorem collect_keys_nodup (api_key : String) (api_keys : List String) :
    (collect_keys api_key api_keys).Nodup :=
  collect_keys_aux_nodup _ [] List.nodup_nil

theorem collect_keys_aux_mem :
    ∀ (l acc : List String), (∀ x ∈ acc, x ≠ "") →
      ∀ x ∈ collect_keys_aux l acc, x ≠ "" := by
  intro l
  induction l with
  | nil => intro acc h; exact h
  | cons raw rest ih =>
    intro acc h
    rw [collect_keys_aux]
    by_cases hc : pyStrip raw = "" ∨ pyStrip raw ∈ acc
    · simpa [hc] using ih acc h
    · have hne : pyStrip raw ≠ "" := fun he => hc (Or.inl he)
      simp only [if_neg hc]
      refine ih _ ?_
      intro x hx
      rcases List.mem_append.mp hx with hx | hx
      · exact h x hx
      · simpa using List.mem_singleton.mp hx ▸ hne

theorem collect_keys_mem_ne_empty (api_key : String) (api_keys : List String) :
    ∀ x ∈ collect_keys api_key api_keys, x ≠ "" :=
  collect_keys_aux_mem _ [] (by simp)

theorem keyPool_next_eq (keys : List String) (i : Nat) (h : keys ≠ []) :
    KeyPool.next ⟨keys, i⟩ =
      (keys.getD (i % keys.length) "", ⟨keys, (i + 1) % keys.length⟩) := by
  simp [KeyPool.next, h]

theorem keyPool_draw_eq (keys : List String) (h : keys ≠ []) :
    ∀ (k i : Nat),
      KeyPool.draw ⟨keys, i⟩ k = keys.getD ((i + k) % keys.length) "" := by
  intro k
  induction k with
  | zero => intro i; simp [KeyPool.draw, keyPool_next_eq keys i h]
  | succ k ih =>
    intro i
    rw [KeyPool.draw, keyPool_next_eq keys i h]
    rw [ih ((i + 1) % keys.length)]
    have harith : ((i + 1) % keys.length + k) % keys.length =
        (i + (k + 1)) % keys.length := by
      rw [Nat.mod_add_mod]
      have : i + 1 + k = i + (k + 1) := by omega
      rw [this]
    rw [harith]

theorem range_map_getD {α : Type} (l : List α) (d : α) :
    (List.range l.length).map (fun k => l.getD k d) = l := by
  induction l with
  | nil => simp
  | cons a t ih =>
    rw [List.length_cons, List.range_succ_eq_map, List.map_cons, List.map_map]
    have hcomp : ((fun k => (a :: t).getD k d) ∘ Nat.succ) =
        fun k => t.getD k d := rfl
    rw [hcomp, ih]
    rfl

/-- Claim C3: a key pool built from a provider configuration (blanks and
duplicates removed, first-occurrence order kept) cycles with period exactly
`N`: call `k` and call `k+N` agree, the first `N` calls return the keys in
configuration order (each exactly once, the key list being duplicate-free),
no smaller shift repeats the first call, and a pool with no keys returns
`""` on every call. -/
theorem keypool_round_robin (api_key : String) (api_keys : List String) :
    (collect_keys api_key api_keys = [] →
      ∀ k, KeyPool.draw ⟨collect_keys api_key api_keys, 0⟩ k = "") ∧
    (∀ k, KeyPool.draw ⟨collect_keys api_key api_keys, 0⟩
        (k + (collect_keys api_key api_keys).length) =
      KeyPool.draw ⟨collect_keys api_key api_keys, 0⟩ k) ∧
    (List.range (collect_keys api_key api_keys).length).map
        (KeyPool.draw ⟨collect_keys api_key api_keys, 0⟩) =
      collect_keys api_key api_keys ∧
    (collect_keys api_key api_keys).Nodup ∧
    (∀ p, 0 < p → p < (collect_keys api_key api_keys).length →
      KeyPool.draw ⟨collect_keys api_key api_keys, 0⟩ p ≠
        KeyPool.draw ⟨collect_keys api_key api_keys, 0⟩ 0) := by
  set keys := collect_keys api_key api_keys with hkeys
  clear_value keys
  by_cases hnil : keys = []
  · subst hnil
    refine ⟨fun _ k => ?_, fun k => rfl, by simp, List.nodup_nil, by simp⟩
    induction k with
    | zero => rfl
    | succ k ih => simpa [KeyPool.draw, KeyPool.next] using ih
  · have hdraw := keyPool_draw_eq keys hnil
    have hlen : 0 < keys.length := List.length_pos.mpr hnil
    have hnodup : keys.Nodup := hkeys ▸ collect_keys_nodup api_key api_keys
    refine ⟨fun he => absurd he hnil, ?_, ?_, hnodup, ?_⟩
    · intro k
      rw [hdraw, hdraw]
      simp [Nat.add_mod_right]
    · have : ∀ k ∈ List.range keys.length,
          KeyPool.draw ⟨keys, 0⟩ k = keys.getD k "" := by
        intro k hk
        rw [hdraw]
        simp [Nat.mod_eq_of_lt (List.mem_range.mp hk)]
      rw [List.map_congr_left this]
      exact range_map_getD keys ""
    · intro p hp hplen heq
      rw [hdraw, hdraw] at heq
      simp only [Nat.zero_add, Nat.mod_eq_of_lt hplen,
        Nat.mod_eq_of_lt hlen] at heq
      have h0 : (0 : Nat) < keys.length := hlen
      rw [List.getD_eq_getElem _ _ hplen, List.getD_eq_getElem _ _ h0] at heq
      have := List.Nodup.getElem_inj_iff hnodup |>.mp heq
      omega

/-- Witness for C3 at a concrete configuration: duplicates and blanks are
removed (the pool holds `["key-A", "key-B"]`), and call 2 differs from
call 1. -/
theorem keypool_round_robin_witness :
    (0 : Nat) < 1 ∧ 1 < (collect_keys "key-A" ["key-B", " key-A ", ""]).length ∧
    KeyPool.draw ⟨collect_keys "key-A" ["key-B", " key-A ", ""], 0⟩ 1 ≠
      KeyPool.draw ⟨collect_keys "key-A" ["key-B", " key-A ", ""], 0⟩ 0 ∧
    collect_keys "" [] = [] ∧
    KeyPool.draw ⟨collect_keys "" [], 0⟩ 5 = "" :=
  ⟨by decide, by decide,
   (keypool_round_robin "key-A" ["key-B", " key-A ", ""]).2.2.2.2 1
     (by decide) (by decide),
   by decide,
   (keypool_round_robin "" []).1 (by decide) 5⟩

theorem lookupA_insertA_self {β : Type} (k : String) (v : β)
    (l : List (String × β)) : lookupA k (insertA k v l) = some v := by
  simp [insertA, lookupA]

theorem lookupA_eraseA_other {β : Type} (k k' : String)
    (l : List (String × β)) (hne : k ≠ k') :
    lookupA k' (eraseA k l) = lookupA k' l := by
  induction l with
  | nil => rfl
  | cons p rest ih =>
    cases p with
    | mk a b =>
      by_cases hp : a = k
      · have ha : a ≠ k' := fun h => hne (hp ▸ h)
        rw [eraseA] at ih ⊢
        rw [List.filter_cons_of_neg (by simpa using hp)]
        rw [ih, lookupA, if_neg ha]
      · rw [eraseA] at ih ⊢
        rw [List.filter_cons_of_pos (by simpa using hp)]
        rw [lookupA, lookupA, ih]

theorem lookupA_insertA_other {β : Type} (k k' : String) (v : β)
    (l : List (String × β)) (hne : k ≠ k') :
    lookupA k' (insertA k v l) = lookupA k' l := by
  rw [insertA, lookupA, if_neg hne]
  exact lookupA_eraseA_other k k' l hne

theorem lookupA_eraseA_self {β : Type} (k : String) (l : List (String × β)) :
    lookupA k (eraseA k l) = none := by
  induction l with
  | nil => rfl
  | cons p rest ih =>
    cases p with
    | mk a b =>
      by_cases hp : a = k
      · rw [eraseA] at ih ⊢
        rw [List.filter_cons_of_neg (by simpa using hp)]
        exact ih
      · rw [eraseA] at ih ⊢
        rw [List.filter_cons_of_pos (by simpa using hp)]
        rw [lookupA, if_neg hp, ih]

/-! ## Registry helper lemmas -/

theorem fetch_and_cache_ok (reg : ModelRegistry) (curated : List CuratedEntry)
    (st : RegistryState) (provider : String) (ent : Option EntitlementContext)
    (key : String) (now : Int) (es : CacheEntry × RegistryState)
    (h : reg._fetch_and_cache curated st provider ent key now = .ok es) :
    es.2.cache = insertA key es.1 st.cache ∧
    es.2.learned = st.learned ∧
    es.1.fetched_at = now ∧
    es.1.expires_at = now + reg.ttl_seconds ∧
    ∃ adapter models, reg._adapter_for provider ent = some adapter ∧
      adapter.list_models = .ok models ∧
      es.1.data = models.map (apply_curated_metadata curated) := by
  rw [ModelRegistry._fetch_and_cache] at h
  cases ha : reg._adapter_for provider ent with
  | none => rw [ha] at h; simp at h
  | some adapter =>
    rw [ha] at h
    dsimp only at h
    cases hm : adapter.list_models with
    | error e => rw [hm] at h; simp at h
    | ok models =>
      rw [hm] at h
      dsimp only at h
      simp only [Except.ok.injEq] at h
      rw [← h]
      exact ⟨rfl, rfl, rfl, rfl, adapter, models, rfl, hm, rfl⟩

theorem for_provider_frame (reg : ModelRegistry) (curated : List CuratedEntry)
    (st : RegistryState) (provider : String) (refresh : Bool)
    (ent : Option EntitlementContext) (now : Int) (k : String)
    (hk : k ≠ _cache_key provider ent) :
    lookupA k ((reg._for_provider curated st provider refresh ent now).2.cache) =
      lookupA k st.cache ∧
    ((reg._for_provider curated st provider refresh ent now).2).learned =
      st.learned := by
  rw [ModelRegistry._for_provider]
  split
  · exact ⟨rfl, rfl⟩
  · cases hf : reg._fetch_and_cache curated st provider ent
        (_cache_key provider ent) now with
    | ok es =>
      obtain ⟨hc, hl, -, -, -⟩ := fetch_and_cache_ok reg curated st provider ent
        (_cache_key provider ent) now es hf
      simp only [hf]
      constructor
      · rw [hc]
        exact lookupA_insertA_other _ k es.1 st.cache (Ne.symm hk)
      · exact hl
    | error e =>
      simp only [hf]
      split
      · split
        · exact ⟨rfl, rfl⟩
        · exact ⟨rfl, rfl⟩
      · exact ⟨rfl, rfl⟩

/-! ## Entitlement resolution (C9) -/

/-- Claim C9: entitlement resolution yields `none` exactly when no pool
exists or the pool draws an empty key; otherwise the context carries the
drawn key (never empty) and its SHA-256 fingerprint; a blank or absent key
fingerprints to the empty string. -/
theorem entitlement_resolution (k : Kit) (pools : List (String × KeyPool))
    (provider : String) :
    (lookupA provider pools = none →
      (k.entitlement_for_provider pools provider).1 = none) ∧
    (∀ pool, lookupA provider pools = some pool → pool.next.1 = "" →
      (k.entitlement_for_provider pools provider).1 = none) ∧
    (∀ pool, lookupA provider pools = some pool → pool.next.1 ≠ "" →
      (k.entitlement_for_provider pools provider).1 =
        some { provider := some provider, apiKey := some pool.next.1,
               apiKeyFingerprint := some (fingerprint_api_key (some pool.next.1)) }) ∧
    (∀ ctx, (k.entitlement_for_provider pools provider).1 = some ctx →
      ∃ key, ctx.apiKey = some key ∧ key ≠ "" ∧
        ctx.apiKeyFingerprint = some (fingerprint_api_key (some key))) ∧
    (∀ key, key ≠ "" → pyStrip key = key →
      fingerprint_api_key (some key) = sha256Hex key) ∧
    (∀ s, pyStrip s = "" → fingerprint_api_key (some s) = "") ∧
    fingerprint_api_key none = "" := by
  refine ⟨?_, ?_, ?_, ?_, ?_, ?_, rfl⟩
  · intro h
    simp [Kit.entitlement_for_provider, h]
  · intro pool hp he
    simp [Kit.entitlement_for_provider, hp, he]
  · intro pool hp he
    simp [Kit.entitlement_for_provider, hp, he]
  · intro ctx hctx
    rw [Kit.entitlement_for_provider] at hctx
    cases hl : lookupA provider pools with
    | none => rw [hl] at hctx; simp at hctx
    | some pool =>
      rw [hl] at hctx
      dsimp only at hctx
      by_cases he : pool.next.1 = ""
      · simp [he] at hctx
      · simp only [if_neg he] at hctx
        refine ⟨pool.next.1, ?_, he, ?_⟩
        · rw [← Option.some_inj.mp hctx]
        · rw [← Option.some_inj.mp hctx]
  · intro key hne ht
    have hs : pyStrip key ≠ "" := by rw [ht]; exact hne
    simp [fingerprint_api_key, hs, ht, hne]
  · intro s hs
    simp [fingerprint_api_key, hs]

/-- Witness for C9: a concrete one-key pool resolves to a context carrying
`key-A` and its SHA-256 fingerprint; a blank key fingerprints to `""`. -/
theorem entitlement_resolution_witness :
    (Kit.entitlement_for_provider kitBare [("p", ⟨["key-A"], 0⟩)] "p").1 =
      some { provider := some "p", apiKey := some "key-A",
             apiKeyFingerprint := some (fingerprint_api_key (some "key-A")) } ∧
    fingerprint_api_key (some "key-A") = sha256Hex "key-A" ∧
    fingerprint_api_key (some "  ") = "" :=
  ⟨(entitlement_resolution kitBare [("p", ⟨["key-A"], 0⟩)] "p").2.2.1
     ⟨["key-A"], 0⟩ (by decide) (by decide),
   (entitlement_resolution kitBare [] "p").2.2.2.2.1 "key-A"
     (by decide) (by decide),
   (entitlement_resolution kitBare [] "p").2.2.2.2.2.1 "  " (by decide)⟩

/-! ## Cache-key partitioning (C6) -/

theorem string_data_inj {s t : String} (h : s.data = t.data) : s = t := by
  cases s
  cases t
  simp only at h
  rw [h]

/-- The pipe-join of `_cache_key` written out (right-associated). -/
theorem cache_key_explicit (provider : String) (ent : Option EntitlementContext) :
    _cache_key provider ent =
      provider ++ ("|" ++ (_cache_fingerprint ent ++ ("|" ++
        (entField ent (fun e => e.accountId) ++ ("|" ++
          (entField ent (fun e => e.region) ++ ("|" ++
            (entField ent (fun e => e.environment) ++ ("|" ++
              (entField ent (fun e => e.tenantId) ++ ("|" ++
                entField ent (fun e => e.userId)))))))))))) := by
  simp [_cache_key, String.intercalate, String.intercalate.go, String.append_assoc]

/-- Counterexample to C6 as stated: an entitlement with no
`apiKeyFingerprint` but a non-empty `apiKey` is keyed under the SHA-256
fingerprint of the key, not under `"default"`. -/
theorem cache_key_default_fallback_cex :
    _cache_key "openai" (some { apiKey := some "k" }) =
      "openai|" ++ sha256Hex "k" ++ "|||||" ∧
    sha256Hex "k" ≠ "default" ∧
    sha256Hex "k" ≠ "" ∧
    _cache_key "openai" (some { apiKey := some "k" }) ≠ "openai|default|||||" :=
  ⟨by decide, by decide, by decide, by decide⟩

/-- Claim C6 (amended): the cache key pipe-joins provider, a fingerprint
component and the five tenant fields; the fingerprint component is
`apiKeyFingerprint` when non-empty, else the SHA-256 fingerprint of
`apiKey` when that is non-empty, else `"default"` (in particular with no
entitlement at all); entitlements with different fingerprint components but
equal tenant fields occupy different cache keys, and a `_for_provider` call
under one key leaves every other key's cache entry untouched. -/
theorem cache_key_partitioning (provider : String) (e : EntitlementContext)
    (reg : ModelRegistry) (curated : List CuratedEntry) (st : RegistryState)
    (refresh : Bool) (e1 e2 : Option EntitlementContext) (now : Int) :
    _cache_fingerprint none = "default" ∧
    (∀ f, e.apiKeyFingerprint = some f → f ≠ "" →
      _cache_fingerprint (some e) = f) ∧
    (e.apiKeyFingerprint.getD "" = "" → fingerprint_api_key e.apiKey ≠ "" →
      _cache_fingerprint (some e) = fingerprint_api_key e.apiKey) ∧
    (e.apiKeyFingerprint.getD "" = "" → fingerprint_api_key e.apiKey = "" →
      _cache_fingerprint (some e) = "default") ∧
    (_cache_fingerprint e1 ≠ _cache_fingerprint e2 →
      entField e1 (fun x => x.accountId) = entField e2 (fun x => x.accountId) →
      entField e1 (fun x => x.region) = entField e2 (fun x => x.region) →
      entField e1 (fun x => x.environment) = entField e2 (fun x => x.environment) →
      entField e1 (fun x => x.tenantId) = entField e2 (fun x => x.tenantId) →
      entField e1 (fun x => x.userId) = entField e2 (fun x => x.userId) →
      _cache_key provider e1 ≠ _cache_key provider e2) ∧
    (_cache_key provider e1 ≠ _cache_key provider e2 →
      lookupA (_cache_key provider e2)
        ((reg._for_provider curated st provider refresh e1 now).2.cache) =
      lookupA (_cache_key provider e2) st.cache) := by
  refine ⟨rfl, ?_, ?_, ?_, ?_, ?_⟩
  · intro f hf hne
    simp [_cache_fingerprint, hf, hne]
  · intro h1 h2
    simp [_cache_fingerprint, h1, h2]
  · intro h1 h2
    simp [_cache_fingerprint, h1, h2]
  · intro hfp ha hr henv ht hu heq
    apply hfp
    rw [cache_key_explicit, cache_key_explicit, ha, hr, henv, ht, hu] at heq
    have hd := congrArg String.data heq
    simp only [String.data_append] at hd
    have h1 := List.append_cancel_left hd
    have h2 := List.append_cancel_left h1
    exact string_data_inj (List.append_cancel_right h2)
  · intro hk
    exact (for_provider_frame reg curated st provider refresh e1 now
      (_cache_key provider e2) (fun h => hk h.symm)).1

/-- Witness for C6: two fingerprints give disjoint partitions, and a
`_for_provider` call under the `aaa` partition leaves the `bbb` partition's
cache slot unchanged. -/
theorem cache_key_partitioning_witness :
    _cache_key "p" (some { apiKeyFingerprint := some "aaa" }) ≠
      _cache_key "p" (some { apiKeyFingerprint := some "bbb" }) ∧
    lookupA (_cache_key "p" (some { apiKeyFingerprint := some "bbb" }))
      ((regFail._for_provider [] stCached "p" false
        (some { apiKeyFingerprint := some "aaa" }) 0).2.cache) =
    lookupA (_cache_key "p" (some { apiKeyFingerprint := some "bbb" }))
      stCached.cache :=
  ⟨(cache_key_partitioning "p" {} regFail [] stCached false
      (some { apiKeyFingerprint := some "aaa" })
      (some { apiKeyFingerprint := some "bbb" }) 0).2.2.2.2.1
     (by decide) (by decide) (by decide) (by decide) (by decide) (by decide),
   (cache_key_partitioning "p" {} regFail [] stCached false
      (some { apiKeyFingerprint := some "aaa" })
      (some { apiKeyFingerprint := some "bbb" }) 0).2.2.2.2.2
     (by decide)⟩

/-! ## Cache hit, refetch and stale-read lemmas (C7, C1) -/

theorem for_provider_hit (reg : ModelRegistry) (curated : List CuratedEntry)
    (st : RegistryState) (provider : String) (ent : Option EntitlementContext)
    (now : Int) (c : CacheEntry)
    (hc : lookupA (_cache_key provider ent) st.cache = some c)
    (hv : now < c.expires_at) :
    reg._for_provider curated st provider false ent now = (.ok c, st) := by
  rw [ModelRegistry._for_provider]
  simp [hc, hv]

theorem for_provider_stale_serve (reg : ModelRegistry)
    (curated : List CuratedEntry) (st : RegistryState) (provider : String)
    (ent : Option EntitlementContext) (now : Int) (c : CacheEntry) (e : Exn)
    (hc : lookupA (_cache_key provider ent) st.cache = some c)
    (hv : now < c.expires_at)
    (hf : reg._fetch_and_cache curated st provider ent
      (_cache_key provider ent) now = .error e) :
    reg._for_provider curated st provider true ent now = (.ok c, st) := by
  rw [ModelRegistry._for_provider]
  simp [hc, hv, hf]

theorem for_provider_error_propagates (reg : ModelRegistry)
    (curated : List CuratedEntry) (st : RegistryState) (provider : String)
    (refresh : Bool) (ent : Option EntitlementContext) (now : Int) (e : Exn)
    (hmiss : ∀ c, lookupA (_cache_key provider ent) st.cache = some c →
      c.expires_at ≤ now)
    (hf : reg._fetch_and_cache curated st provider ent
      (_cache_key provider ent) now = .error e) :
    reg._for_provider curated st provider refresh ent now = (.error e, st) := by
  rw [ModelRegistry._for_provider]
  cases hlk : lookupA (_cache_key provider ent) st.cache with
  | none => cases refresh <;> simp [hlk, hf]
  | some c =>
    have hle := hmiss c hlk
    cases refresh <;> simp [hlk, hf, not_lt.mpr hle]

theorem for_provider_miss_fetch_ok (reg : ModelRegistry)
    (curated : List CuratedEntry) (st : RegistryState) (provider : String)
    (refresh : Bool) (ent : Option EntitlementContext) (now : Int)
    (es : CacheEntry × RegistryState)
    (hmiss : ∀ c, lookupA (_cache_key provider ent) st.cache = some c →
      c.expires_at ≤ now)
    (hf : reg._fetch_and_cache curated st provider ent
      (_cache_key provider ent) now = .ok es) :
    reg._for_provider curated st provider refresh ent now = (.ok es.1, es.2) := by
  rw [ModelRegistry._for_provider]
  cases hlk : lookupA (_cache_key provider ent) st.cache with
  | none => cases refresh <;> simp [hlk, hf]
  | some c =>
    have hle := hmiss c hlk
    cases refresh <;> simp [hlk, hf, not_lt.mpr hle]

/-- Claim C7: a stored entry satisfies `expires_at = fetched_at + ttl`
(and the invariant is preserved by every `_for_provider` call); with
`refresh` off, a cached entry is returned unchanged exactly while
`now < expires_at`; at or past `expires_at` the call refetches and replaces
the entry with one stamped `fetched_at = now`. -/
theorem cache_ttl (reg : ModelRegistry) (curated : List CuratedEntry)
    (st : RegistryState) (provider : String) (ent : Option EntitlementContext)
    (refresh : Bool) (now : Int) :
    (∀ es, reg._fetch_and_cache curated st provider ent
        (_cache_key provider ent) now = .ok es →
      es.1.expires_at = es.1.fetched_at + reg.ttl_seconds ∧
      es.1.fetched_at = now ∧
      lookupA (_cache_key provider ent) es.2.cache = some es.1) ∧
    ((∀ k c, lookupA k st.cache = some c →
        c.expires_at = c.fetched_at + reg.ttl_seconds) →
      ∀ k c, lookupA k
          ((reg._for_provider curated st provider refresh ent now).2.cache) =
            some c →
        c.expires_at = c.fetched_at + reg.ttl_seconds) ∧
    (∀ c, lookupA (_cache_key provider ent) st.cache = some c →
      now < c.expires_at →
      reg._for_provider curated st provider false ent now = (.ok c, st)) ∧
    (∀ c es, lookupA (_cache_key provider ent) st.cache = some c →
      c.expires_at ≤ now →
      reg._fetch_and_cache curated st provider ent
        (_cache_key provider ent) now = .ok es →
      reg._for_provider curated st provider refresh ent now = (.ok es.1, es.2) ∧
      lookupA (_cache_key provider ent) es.2.cache = some es.1 ∧
      es.1.fetched_at = now ∧ es.1.expires_at = now + reg.ttl_seconds) := by
  refine ⟨?_, ?_, ?_, ?_⟩
  · intro es hf
    obtain ⟨hc, -, hfa, hex, -⟩ :=
      fetch_and_cache_ok reg curated st provider ent _ now es hf
    refine ⟨by rw [hex, hfa], hfa, ?_⟩
    rw [hc]
    exact lookupA_insertA_self _ es.1 st.cache
  · intro hinv k c
    rw [ModelRegistry._for_provider]
    split
    · exact fun hlk => hinv k c hlk
    · cases hf : reg._fetch_and_cache curated st provider ent
          (_cache_key provider ent) now with
      | ok es =>
        simp only [hf]
        intro hlk
        obtain ⟨hcache, -, hfa, hex, -⟩ :=
          fetch_and_cache_ok reg curated st provider ent _ now es hf
        rw [hcache] at hlk
        by_cases hk : _cache_key provider ent = k
        · rw [← hk, lookupA_insertA_self] at hlk
          cases hlk
          rw [hex, hfa]
        · rw [lookupA_insertA_other _ _ _ _ hk] at hlk
          exact hinv k c hlk
      | error e =>
        simp only [hf]
        split
        · split
          · exact fun hlk => hinv k c hlk
          · exact fun hlk => hinv k c hlk
        · exact fun hlk => hinv k c hlk
  · intro c hc hv
    exact for_provider_hit reg curated st provider ent now c hc hv
  · intro c es hc hle hf
    have hmiss : ∀ c2, lookupA (_cache_key provider ent) st.cache = some c2 →
        c2.expires_at ≤ now := by
      intro c2 hc2
      rw [hc] at hc2
      cases hc2
      exact hle
    obtain ⟨hcache, -, hfa, hex, -⟩ :=
      fetch_and_cache_ok reg curated st provider ent _ now es hf
    refine ⟨for_provider_miss_fetch_ok reg curated st provider refresh ent now
      es hmiss hf, ?_, hfa, hex⟩
    rw [hcache]
    exact lookupA_insertA_self _ es.1 st.cache

/-- Witness for C7: at `now = 5` the cached entry (fetched 0, expires 10)
is served untouched; at `now = 10` the call refetches and the new entry is
stamped `fetched_at = 10`, `expires_at = 20`. -/
theorem cache_ttl_witness :
    regOk._for_provider [] stCached "p" false none 5 = (.ok entryFix, stCached) ∧
    regOk._for_provider [] stCached "p" false none 10 =
      (.ok { data := [modelFix], fetched_at := 10, expires_at := 20 },
       { cache := [("p|default|||||",
           { data := [modelFix], fetched_at := 10, expires_at := 20 })],
         learned := [] }) :=
  ⟨(cache_ttl regOk [] stCached "p" none false 5).2.2.1 entryFix
     (by decide) (by decide),
   ((cache_ttl regOk [] stCached "p" none false 10).2.2.2 entryFix
     ({ data := [modelFix], fetched_at := 10, expires_at := 20 },
      { cache := [("p|default|||||",
          { data := [modelFix], fetched_at := 10, expires_at := 20 })],
        learned := [] })
     (by decide) (by decide) (by decide)).1⟩

/-! ## Stale-read-on-failure (C1) -/

/-- Counterexample to C1 as stated: the cache holds a (now expired) entry
for the key, the live fetch raises, and `list_models` propagates the error
instead of serving the stale entry. -/
theorem stale_read_counterexample :
    (regFail.list_models [] stCached (some ["p"]) false none 15).1 =
      .error (.other "boom") ∧
    lookupA "p|default|||||" stCached.cache = some entryFix ∧
    _cache_key "p" none = "p|default|||||" ∧
    entryFix.expires_at ≤ 15 :=
  ⟨by decide, by decide, by decide, by decide⟩

/-- Claim C1 (amended): when the live fetch raises, the cached entry is
served only when it exists and is still unexpired (`now < expires_at`,
which can only happen on a forced `refresh`); with an expired entry, or no
entry, the error propagates. -/
theorem stale_read_on_failure (reg : ModelRegistry)
    (curated : List CuratedEntry) (st : RegistryState) (provider : String)
    (refresh : Bool) (ent : Option EntitlementContext) (now : Int) (e : Exn) :
    (∀ c, lookupA (_cache_key provider ent) st.cache = some c →
      now < c.expires_at →
      reg._fetch_and_cache curated st provider ent
        (_cache_key provider ent) now = .error e →
      reg._for_provider curated st provider true ent now = (.ok c, st)) ∧
    (∀ c, lookupA (_cache_key provider ent) st.cache = some c →
      c.expires_at ≤ now →
      reg._fetch_and_cache curated st provider ent
        (_cache_key provider ent) now = .error e →
      reg._for_provider curated st provider refresh ent now = (.error e, st)) ∧
    (lookupA (_cache_key provider ent) st.cache = none →
      reg._fetch_and_cache curated st provider ent
        (_cache_key provider ent) now = .error e →
      reg._for_provider curated st provider refresh ent now = (.error e, st)) := by
  refine ⟨?_, ?_, ?_⟩
  · intro c hc hv hf
    exact for_provider_stale_serve reg curated st provider ent now c e hc hv hf
  · intro c hc hle hf
    refine for_provider_error_propagates reg curated st provider refresh ent
      now e ?_ hf
    intro c2 hc2
    rw [hc] at hc2
    cases hc2
    exact hle
  · intro hnone hf
    refine for_provider_error_propagates reg curated st provider refresh ent
      now e ?_ hf
    intro c2 hc2
    rw [hnone] at hc2
    cases hc2

/-- Witness for C1 (amended): a forced refresh at `now = 5` whose fetch
raises falls back to the still-valid cached entry; the same failing fetch
at `now = 15` (entry expired) propagates the error. -/
theorem stale_read_on_failure_witness :
    regFail._for_provider [] stCached "p" true none 5 = (.ok entryFix, stCached) ∧
    regFail._for_provider [] stCached "p" false none 15 =
      (.error (.other "boom"), stCached) :=
  ⟨(stale_read_on_failure regFail [] stCached "p" true none 5
      (.other "boom")).1 entryFix (by decide) (by decide) (by decide),
   (stale_read_on_failure regFail [] stCached "p" false none 15
      (.other "boom")).2.1 entryFix (by decide) (by decide) (by decide)⟩

/-! ## Learned unavailability (C4) -/

/-- Counterexample to C4 as stated: a durable not-found error whose
message is empty is dropped by the `if not reason` string-truthiness check
(`registry.py:80`) — the program records nothing, where the claim demands
a learned entry. -/
theorem learn_empty_message_noop_cex :
    regOk.learn_model_unavailable {} none "p" "m1"
        (.kit { kind := .PROVIDER_NOT_FOUND, message := "" }) 0 = {} ∧
    lookupA (_learned_key "p" none "m1")
      (regOk.learn_model_unavailable {} none "p" "m1"
        (.kit { kind := .PROVIDER_NOT_FOUND, message := "" }) 0).learned =
      none :=
  ⟨by decide, by decide⟩

/-- Claim C4 (amended): `learn_model_unavailable` records an entry expiring
at `now + learned_ttl_seconds` for not-found/validation kinds and for
durable 4xx upstream statuses (400/403/404), provided the error's string
rendering (its message) is non-empty — an empty-message reason is dropped
by the truthiness check; it is a no-op for rate-limit and unavailable/5xx
classifications; it never touches the model cache; and a learned not-found
makes the model's record report `entitled = false, confidence = "learned"`
while the entry is unexpired. -/
theorem learn_model_unavailable_policy (reg : ModelRegistry)
    (st : RegistryState) (ent : Option EntitlementContext)
    (provider model_id : String) (now : Int) (p : KitErrorPayload) :
    ((p.kind = .PROVIDER_NOT_FOUND ∨ p.kind = .VALIDATION) → p.message ≠ "" →
      (reg.learn_model_unavailable st ent provider model_id (.kit p) now).learned =
        insertA (_learned_key provider ent model_id)
          (now + reg.learned_ttl_seconds, p.message) st.learned) ∧
    (∀ s, p.upstreamStatus = some s → (s = 400 ∨ s = 403 ∨ s = 404) →
      p.message ≠ "" →
      (reg.learn_model_unavailable st ent provider model_id (.kit p) now).learned =
        insertA (_learned_key provider ent model_id)
          (now + reg.learned_ttl_seconds, p.message) st.learned) ∧
    (p.kind = classify_status p.upstreamStatus →
      (p.kind = .PROVIDER_RATE_LIMIT ∨ p.kind = .PROVIDER_UNAVAILABLE) →
      reg.learn_model_unavailable st ent provider model_id (.kit p) now = st) ∧
    ((reg.learn_model_unavailable st ent provider model_id (.kit p) now).cache =
      st.cache) ∧
    (p.kind = .PROVIDER_NOT_FOUND → p.message ≠ "" →
      ∀ (m : ModelMetadata) (fetched now2 : Int), m.id = model_id →
        now2 ≤ now + reg.learned_ttl_seconds →
        ((reg._to_record
            (reg.learn_model_unavailable st ent provider model_id (.kit p) now)
            m provider fetched ent now2).1.availability.entitled = false ∧
          (reg._to_record
            (reg.learn_model_unavailable st ent provider model_id (.kit p) now)
            m provider fetched ent now2).1.availability.confidence =
              some "learned" ∧
          (reg._to_record
            (reg.learn_model_unavailable st ent provider model_id (.kit p) now)
            m provider fetched ent now2).1.availability.reason =
              some p.message)) := by
  refine ⟨?_, ?_, ?_, ?_, ?_⟩
  · intro hk hmsg
    simp [ModelRegistry.learn_model_unavailable, _learn_reason, hk, hmsg]
  · intro s hst hs hmsg
    by_cases hk : p.kind = .PROVIDER_NOT_FOUND ∨ p.kind = .VALIDATION
    · simp [ModelRegistry.learn_model_unavailable, _learn_reason, hk, hmsg]
    · simp [ModelRegistry.learn_model_unavailable, _learn_reason, hk, hst, hs,
        hmsg]
  · intro hcls hk
    have hnotnf : ¬(p.kind = .PROVIDER_NOT_FOUND ∨ p.kind = .VALIDATION) := by
      rcases hk with hk | hk <;> rw [hk] <;> simp
    cases hst : p.upstreamStatus with
    | none =>
      rw [hst] at hcls
      rcases hk with hk | hk <;> rw [hk] at hcls <;>
        simp [classify_status] at hcls
    | some s =>
      rw [hst] at hcls
      have hs : ¬(s = 400 ∨ s = 403 ∨ s = 404) := by
        simp only [classify_status] at hcls
        split_ifs at hcls with h1 h2 h3 h4
        · rw [hcls] at hk
          rcases hk with hk | hk <;> exact absurd hk (by decide)
        · rw [hcls] at hk
          rcases hk with hk | hk <;> exact absurd hk (by decide)
        · omega
        · omega
        · rw [hcls] at hk
          rcases hk with hk | hk <;> exact absurd hk (by decide)
      have hreason : _learn_reason (.kit p) = none := by
        simp only [_learn_reason, hst]
        rw [if_neg hnotnf]
        simp [hs]
      simp [ModelRegistry.learn_model_unavailable, hreason]
  · cases hr : _learn_reason (.kit p) with
    | none => simp [ModelRegistry.learn_model_unavailable, hr]
    | some reason =>
      by_cases hm : reason = "" <;>
        simp [ModelRegistry.learn_model_unavailable, hr, hm]
  · intro hk hmsg m fetched now2 hmid hle
    have hreason : _learn_reason (.kit p) = some p.message := by
      simp [_learn_reason, hk]
    have hlk : lookupA (_learned_key provider ent m.id)
        (reg.learn_model_unavailable st ent provider model_id
          (.kit p) now).learned =
        some (now + reg.learned_ttl_seconds, p.message) := by
      rw [hmid]
      simp [ModelRegistry.learn_model_unavailable, hreason, hmsg,
        lookupA_insertA_self]
    have hstatus : reg._learned_status
        (reg.learn_model_unavailable st ent provider model_id (.kit p) now)
        provider ent m.id now2 =
        (some p.message,
         reg.learn_model_unavailable st ent provider model_id (.kit p) now) := by
      rw [ModelRegistry._learned_status, hlk]
      simp [not_lt.mpr hle]
    refine ⟨?_, ?_, ?_⟩ <;> simp [ModelRegistry._to_record, hstatus]

/-- Witness for C4: learning a not-found error records an entry and flips
the model's record to learned-unentitled; a rate-limit-classified error
(status 429) records nothing. -/
theorem learn_model_unavailable_policy_witness :
    (regOk.learn_model_unavailable {} none "p" "m1"
        (.kit nfPayload) 0).learned =
      insertA (_learned_key "p" none "m1") ((0 : Int) + 1200, "no such model")
        [] ∧
    regOk.learn_model_unavailable {} none "p" "m1"
        (.kit { kind := .PROVIDER_RATE_LIMIT, message := "slow down",
                upstreamStatus := some 429 }) 0 = {} ∧
    (regOk._to_record
        (regOk.learn_model_unavailable {} none "p" "m1" (.kit nfPayload) 0)
        modelFix "p" 0 none 100).1.availability.entitled = false ∧
    (regOk._to_record
        (regOk.learn_model_unavailable {} none "p" "m1" (.kit nfPayload) 0)
        modelFix "p" 0 none 100).1.availability.confidence = some "learned" :=
  ⟨(learn_model_unavailable_policy regOk {} none "p" "m1" 0 nfPayload).1
     (by decide) (by decide),
   (learn_model_unavailable_policy regOk {} none "p" "m1" 0
      { kind := .PROVIDER_RATE_LIMIT, message := "slow down",
        upstreamStatus := some 429 }).2.2.1 (by decide) (by decide),
   ((learn_model_unavailable_policy regOk {} none "p" "m1" 0 nfPayload).2.2.2.2
      (by decide) (by decide) modelFix 0 100 (by decide) (by decide)).1,
   ((learn_model_unavailable_policy regOk {} none "p" "m1" 0 nfPayload).2.2.2.2
      (by decide) (by decide) modelFix 0 100 (by decide) (by decide)).2.1⟩

/-! ## Lazy purge of learned entries (C10) -/

/-- Claim C10: during record building the learned-map read is not pure: a
consulted entry whose expiry is strictly past is deleted (lazy purge) and
no longer affects availability; a consulted entry not yet expired still
flips the record and is kept; other learned entries and the model cache
are never touched by the read. -/
theorem learned_lazy_purge (reg : ModelRegistry) (st : RegistryState)
    (provider : String) (ent : Option EntitlementContext) (model_id : String)
    (now : Int) :
    (∀ exp r, lookupA (_learned_key provider ent model_id) st.learned =
        some (exp, r) → exp < now →
      reg._learned_status st provider ent model_id now =
        (none, { st with
          learned := eraseA (_learned_key provider ent model_id) st.learned })) ∧
    (∀ exp r, lookupA (_learned_key provider ent model_id) st.learned =
        some (exp, r) → now ≤ exp →
      reg._learned_status st provider ent model_id now = (some r, st)) ∧
    (lookupA (_learned_key provider ent model_id) st.learned = none →
      reg._learned_status st provider ent model_id now = (none, st)) ∧
    ((reg._learned_status st provider ent model_id now).2.cache = st.cache) ∧
    (∀ k, k ≠ _learned_key provider ent model_id →
      lookupA k ((reg._learned_status st provider ent model_id now).2.learned) =
        lookupA k st.learned) ∧
    (∀ (m : ModelMetadata) (fetched : Int) exp r, m.id = model_id →
      lookupA (_learned_key provider ent model_id) st.learned = some (exp, r) →
      exp < now →
      (reg._to_record st m provider fetched ent now).1.availability.entitled =
        true ∧
      (reg._to_record st m provider fetched ent now).1.availability.confidence =
        some "listed" ∧
      (reg._to_record st m provider fetched ent now).2.learned =
        eraseA (_learned_key provider ent model_id) st.learned ∧
      (reg._to_record st m provider fetched ent now).2.cache = st.cache) := by
  have hstat : ∀ (res : Option String × RegistryState),
      reg._learned_status st provider ent model_id now = res →
      res.2.cache = st.cache := by
    intro res h
    rw [ModelRegistry._learned_status] at h
    revert h
    cases hlk : lookupA (_learned_key provider ent model_id) st.learned with
    | none => intro h; rw [← h]
    | some er =>
      by_cases hexp : er.1 < now
      · intro h; rw [← h]; simp [hexp]
      · intro h; rw [← h]; simp [hexp]
  refine ⟨?_, ?_, ?_, ?_, ?_, ?_⟩
  · intro exp r hlk hexp
    rw [ModelRegistry._learned_status, hlk]
    simp [hexp]
  · intro exp r hlk hexp
    rw [ModelRegistry._learned_status, hlk]
    simp [not_lt.mpr hexp]
  · intro hlk
    rw [ModelRegistry._learned_status, hlk]
  · exact hstat _ rfl
  · intro k hk
    rw [ModelRegistry._learned_status]
    cases hlk : lookupA (_learned_key provider ent model_id) st.learned with
    | none => rfl
    | some er =>
      by_cases hexp : er.1 < now
      · simp only [hexp, if_pos]
        exact lookupA_eraseA_other _ k st.learned (Ne.symm hk)
      · simp [hexp]
  · intro m fetched exp r hmid hlk hexp
    have hstatus : reg._learned_status st provider ent m.id now =
        (none, { st with
          learned := eraseA (_learned_key provider ent model_id) st.learned }) := by
      rw [hmid, ModelRegistry._learned_status, hlk]
      simp [hexp]
    refine ⟨?_, ?_, ?_, ?_⟩ <;> simp [ModelRegistry._to_record, hstatus]

/-- Witness for C10: a learned entry expired at 5 is purged by a record
read at `now = 7` and the record reports the model as entitled; a full
`list_model_records` call performs the same purge end to end. -/
theorem learned_lazy_purge_witness :
    regOk._learned_status
      { cache := [("p|default|||||", entryFix)],
        learned := [("p|default||||||m1", (5, "gone"))] } "p" none "m1" 7 =
      (none, { cache := [("p|default|||||", entryFix)], learned := [] }) ∧
    (match (regOk.list_model_records []
        { cache := [("p|default|||||", entryFix)],
          learned := [("p|default||||||m1", (5, "gone"))] }
        (some ["p"]) false none 7).1 with
      | .ok rs => rs.map (fun r => r.availability.entitled)
      | .error _ => []) = [true] ∧
    (regOk.list_model_records []
      { cache := [("p|default|||||", entryFix)],
        learned := [("p|default||||||m1", (5, "gone"))] }
      (some ["p"]) false none 7).2.learned = [] := by
  refine ⟨?_, by decide, by decide⟩
  have h := (learned_lazy_purge regOk
    { cache := [("p|default|||||", entryFix)],
      learned := [("p|default||||||m1", (5, "gone"))] } "p" none "m1" 7).1
    5 "gone" (by decide) (by decide)
  simpa using h

/-! ## Cost attachment (C5) -/

/-- Counterexample to C5 as stated: an output that carries a usage object
(with no token counts filled in) against a model with curated pricing still
gets no cost — "usage data present and pricing present" does not suffice. -/
theorem cost_attachment_cex :
    ({ usage := some {} } : GenerateOutput).usage ≠ none ∧
    lookup_token_prices curatedFix "p" "m1" ≠ none ∧
    _attach_cost curatedFix inpG { usage := some {} } =
      ({ usage := some {} } : GenerateOutput) ∧
    (_attach_cost curatedFix inpG { usage := some {} }).cost = none :=
  ⟨by decide, by decide, by decide, by decide⟩

/-- Claim C5 (amended): `generate`'s cost attachment changes no field but
`cost` (and leaves the output fully unchanged when no cost is estimated);
a cost is estimated exactly when the usage object is present with at least
one token count and the curated pricing lookup returns a rate sheet with a
nonzero rate; cost estimation is a total function — it returns `none`
rather than raising. -/
theorem cost_attachment (curated : List CuratedEntry) (input : GenerateInput)
    (output : GenerateOutput) :
    ((_attach_cost curated input output).text = output.text ∧
     (_attach_cost curated input output).toolCalls = output.toolCalls ∧
     (_attach_cost curated input output).usage = output.usage ∧
     (_attach_cost curated input output).finishReason = output.finishReason ∧
     (_attach_cost curated input output).raw = output.raw) ∧
    (estimate_cost curated input.provider input.model output.usage = none →
      _attach_cost curated input output = output) ∧
    (∀ c, estimate_cost curated input.provider input.model output.usage = some c →
      _attach_cost curated input output = { output with cost := some c }) ∧
    (∀ provider model usage,
      estimate_cost curated provider model usage ≠ none ↔
        ∃ u, usage = some u ∧
          (u.inputTokens ≠ none ∨ u.outputTokens ≠ none) ∧
          ∃ pr, lookup_token_prices curated provider model = some pr ∧
            (pr.input.getD 0 ≠ 0 ∨ pr.output.getD 0 ≠ 0)) := by
  refine ⟨?_, ?_, ?_, ?_⟩
  · cases hc : estimate_cost curated input.provider input.model output.usage <;>
      simp [_attach_cost, hc]
  · intro hc
    simp [_attach_cost, hc]
  · intro c hc
    simp [_attach_cost, hc]
  · intro provider model usage
    constructor
    · intro h
      cases husage : usage with
      | none => rw [husage] at h; simp [estimate_cost] at h
      | some u =>
        rw [husage] at h
        by_cases htok : u.inputTokens = none ∧ u.outputTokens = none
        · simp [estimate_cost, htok] at h
        · cases hpr : lookup_token_prices curated provider model with
          | none => simp [estimate_cost, htok, hpr] at h
          | some pr =>
            by_cases hrate : pr.input.getD 0 = 0 ∧ pr.output.getD 0 = 0
            · simp [estimate_cost, htok, hpr, hrate] at h
            · exact ⟨u, rfl, not_and_or.mp htok, pr, rfl, not_and_or.mp hrate⟩
    · rintro ⟨u, rfl, htok, pr, hpr, hrate⟩
      have htok2 : ¬(u.inputTokens = none ∧ u.outputTokens = none) := by
        rcases htok with h | h
        · exact fun hc => h hc.1
        · exact fun hc => h hc.2
      have hrate2 : ¬(pr.input.getD 0 = 0 ∧ pr.output.getD 0 = 0) := by
        rcases hrate with h | h
        · exact fun hc => h hc.1
        · exact fun hc => h hc.2
      simp [estimate_cost, htok2, hpr, hrate2]

/-- Witness for C5 (amended): with real token counts and curated pricing
the cost is populated and every other field is untouched. -/
theorem cost_attachment_witness :
    estimate_cost curatedFix "p" "m1"
      (some { inputTokens := some 1000 }) ≠ none ∧
    (_attach_cost curatedFix inpG
      { text := some "hi", usage := some { inputTokens := some 1000 } }).text =
      some "hi" ∧
    (_attach_cost curatedFix inpG
      { text := some "hi", usage := some { inputTokens := some 1000 } }).usage =
      some { inputTokens := some 1000 } :=
  ⟨(cost_attachment curatedFix inpG {}).2.2.2 "p" "m1"
     (some { inputTokens := some 1000 }) |>.mpr
     ⟨{ inputTokens := some 1000 }, rfl, Or.inl (by decide),
      { input := some 5, output := some 10 }, by decide, Or.inl (by decide)⟩,
   (cost_attachment curatedFix inpG
     { text := some "hi", usage := some { inputTokens := some 1000 } }).1.1,
   (cost_attachment curatedFix inpG
     { text := some "hi", usage := some { inputTokens := some 1000 } }).1.2.2.1⟩

/-! ## Capability absence (C8) -/

/-- Claim C8: when the resolved adapter lacks `generate_image`, the Kit
fails with an `UNSUPPORTED` error naming the provider, the capability is
never invoked (ghost flag `false`), and the registry state is untouched
(only the pool cursor advanced). -/
theorem image_capability_unsupported (k : Kit) (curated : List CuratedEntry)
    (st : KitState) (input : ImageGenerateInput) (now : Int) (adapter : Adapter)
    (hres : k.require_adapter input.provider
      (k.entitlement_for_provider st.pools input.provider).1 = .ok adapter)
    (hno : adapter.generate_image = none) :
    k.generate_image curated st input now =
      (.error { kind := .UNSUPPORTED,
                message := "Provider " ++ input.provider ++
                  " does not support image generation" },
       { st with pools := (k.entitlement_for_provider st.pools input.provider).2 },
       false) := by
  simp only [Kit.generate_image, hres, hno]

/-- Witness for C8: a provider whose adapter exposes no image capability
answers `UNSUPPORTED` naming it, without invoking anything. -/
theorem image_capability_unsupported_witness :
    kitBare.generate_image [] {} inpImg 0 =
      (.error { kind := .UNSUPPORTED,
                message := "Provider p does not support image generation" },
       { pools := [], reg := {} }, false) :=
  image_capability_unsupported kitBare [] {} inpImg 0 bareAdapter rfl rfl

/-! ## Classify-learn-rethrow policy (C2) -/

/-- Counterexample to C2 as stated: a stream capability failure carrying a
durable not-found kit error is neither classified-and-re-raised by the Kit
nor recorded: the raw exception rides out through the stream and the
learned map stays empty, although `learn_model_unavailable` would have
recorded this error. -/
theorem stream_error_not_learned_cex :
    kitFail.stream_generate [] {} inpG =
      (.ok { chunks := [], terminal := some (.kit nfPayload) },
       ({} : KitState)) ∧
    (kitFail.stream_generate [] {} inpG).2.reg.learned = [] ∧
    (kitFail.registry.learn_model_unavailable ({} : RegistryState) none "p" "m1"
        (.kit nfPayload) 0).learned ≠ [] :=
  ⟨rfl, rfl, by decide⟩

/-- Claim C2 (amended): the five non-stream capability methods funnel every
adapter failure through `to_kit_error`, record it via
`learn_model_unavailable`, and re-raise the unified error; `stream_generate`
alone applies no such handling — the stream (with any terminal exception
unchanged and unclassified) is returned and the registry is untouched. -/
theorem capability_error_policy (k : Kit) (curated : List CuratedEntry)
    (st : KitState) (now : Int) :
    (∀ (input : GenerateInput) adapter f err,
      k.require_adapter input.provider
        (k.entitlement_for_provider st.pools input.provider).1 = .ok adapter →
      adapter.generate = some f → f input = .error err →
      k.generate curated st input now =
        (.error (to_kit_error err),
         { pools := (k.entitlement_for_provider st.pools input.provider).2,
           reg := k.registry.learn_model_unavailable st.reg
             (k.entitlement_for_provider st.pools input.provider).1
             input.provider input.model (.kit (to_kit_error err)) now },
         true)) ∧
    (∀ (input : ImageGenerateInput) adapter f err,
      k.require_adapter input.provider
        (k.entitlement_for_provider st.pools input.provider).1 = .ok adapter →
      adapter.generate_image = some f → f input = .error err →
      k.generate_image curated st input now =
        (.error (to_kit_error err),
         { pools := (k.entitlement_for_provider st.pools input.provider).2,
           reg := k.registry.learn_model_unavailable st.reg
             (k.entitlement_for_provider st.pools input.provider).1
             input.provider input.model (.kit (to_kit_error err)) now },
         true)) ∧
    (∀ (input : MeshGenerateInput) adapter f err,
      k.require_adapter input.provider
        (k.entitlement_for_provider st.pools input.provider).1 = .ok adapter →
      adapter.generate_mesh = some f → f input = .error err →
      k.generate_mesh curated st input now =
        (.error (to_kit_error err),
         { pools := (k.entitlement_for_provider st.pools input.provider).2,
           reg := k.registry.learn_model_unavailable st.reg
             (k.entitlement_for_provider st.pools input.provider).1
             input.provider input.model (.kit (to_kit_error err)) now },
         true)) ∧
    (∀ (input : SpeechGenerateInput) adapter f err,
      k.require_adapter input.provider
        (k.entitlement_for_provider st.pools input.provider).1 = .ok adapter →
      adapter.generate_speech = some f → f input = .error err →
      k.generate_speech curated st input now =
        (.error (to_kit_error err),
         { pools := (k.entitlement_for_provider st.pools input.provider).2,
           reg := k.registry.learn_model_unavailable st.reg
             (k.entitlement_for_provider st.pools input.provider).1
             input.provider input.model (.kit (to_kit_error err)) now },
         true)) ∧
    (∀ (input : TranscribeInput) adapter f err,
      k.require_adapter input.provider
        (k.entitlement_for_provider st.pools input.provider).1 = .ok adapter →
      adapter.transcribe = some f → f input = .error err →
      k.transcribe curated st input now =
        (.error (to_kit_error err),
         { pools := (k.entitlement_for_provider st.pools input.provider).2,
           reg := k.registry.learn_model_unavailable st.reg
             (k.entitlement_for_provider st.pools input.provider).1
             input.provider input.model (.kit (to_kit_error err)) now },
         true)) ∧
    (∀ (input : GenerateInput) adapter f,
      k.require_adapter input.provider
        (k.entitlement_for_provider st.pools input.provider).1 = .ok adapter →
      adapter.stream_generate = some f →
      k.stream_generate curated st input =
        (.ok (_attach_cost_stream curated (f input) input.provider input.model),
         { pools := (k.entitlement_for_provider st.pools input.provider).2,
           reg := st.reg }) ∧
      (_attach_cost_stream curated (f input) input.provider input.model).terminal
        = (f input).terminal) := by
  refine ⟨?_, ?_, ?_, ?_, ?_, ?_⟩
  · intro input adapter f err hres hcap herr
    simp only [Kit.generate, hres, hcap, herr]
  · intro input adapter f err hres hcap herr
    simp only [Kit.generate_image, hres, hcap, herr]
  · intro input adapter f err hres hcap herr
    simp only [Kit.generate_mesh, hres, hcap, herr]
  · intro input adapter f err hres hcap herr
    simp only [Kit.generate_speech, hres, hcap, herr]
  · intro input adapter f err hres hcap herr
    simp only [Kit.transcribe, hres, hcap, herr]
  · intro input adapter f hres hcap
    exact ⟨by simp only [Kit.stream_generate, hres, hcap], rfl⟩

/-- Witness for C2 (amended): every non-stream capability of a failing
adapter classifies, learns and re-raises the not-found error; the stream
method returns the stream with the raw error and an unchanged registry. -/
theorem capability_error_policy_witness :
    kitFail.generate [] {} inpG 0 =
      (.error nfPayload,
       { pools := [],
         reg := kitFail.registry.learn_model_unavailable {} none "p" "m1"
           (.kit nfPayload) 0 }, true) ∧
    kitFail.generate_image [] {} inpImg 0 =
      (.error nfPayload,
       { pools := [],
         reg := kitFail.registry.learn_model_unavailable {} none "p" "m1"
           (.kit nfPayload) 0 }, true) ∧
    kitFail.generate_mesh [] {} inpMesh 0 =
      (.error nfPayload,
       { pools := [],
         reg := kitFail.registry.learn_model_unavailable {} none "p" "m1"
           (.kit nfPayload) 0 }, true) ∧
    kitFail.generate_speech [] {} inpSpeech 0 =
      (.error nfPayload,
       { pools := [],
         reg := kitFail.registry.learn_model_unavailable {} none "p" "m1"
           (.kit nfPayload) 0 }, true) ∧
    kitFail.transcribe [] {} inpTr 0 =
      (.error nfPayload,
       { pools := [],
         reg := kitFail.registry.learn_model_unavailable {} none "p" "m1"
           (.kit nfPayload) 0 }, true) ∧
    kitFail.stream_generate [] {} inpG =
      (.ok { chunks := [], terminal := some (.kit nfPayload) },
       { pools := [], reg := {} }) :=
  ⟨(capability_error_policy kitFail [] {} 0).1 inpG failAdapter
     (fun _ => .error (.kit nfPayload)) (.kit nfPayload) rfl rfl rfl,
   (capability_error_policy kitFail [] {} 0).2.1 inpImg failAdapter
     (fun _ => .error (.kit nfPayload)) (.kit nfPayload) rfl rfl rfl,
   (capability_error_policy kitFail [] {} 0).2.2.1 inpMesh failAdapter
     (fun _ => .error (.kit nfPayload)) (.kit nfPayload) rfl rfl rfl,
   (capability_error_policy kitFail [] {} 0).2.2.2.1 inpSpeech failAdapter
     (fun _ => .error (.kit nfPayload)) (.kit nfPayload) rfl rfl rfl,
   (capability_error_policy kitFail [] {} 0).2.2.2.2.1 inpTr failAdapter
     (fun _ => .error (.kit nfPayload)) (.kit nfPayload) rfl rfl rfl,
   ((capability_error_policy kitFail [] {} 0).2.2.2.2.2 inpG failAdapter
     (fun _ => { chunks := [], terminal := some (.kit nfPayload) }) rfl rfl).1⟩

end AiKit
